import Mathlib

/-!
# Verification of the ECAD royalty-statement extraction core

A shallow embedding, in Lean 4, of the document-extraction core of the
`ECAD-api` repository: the layout identifier, the field normalizers
(monetary values, periods, text, ISRC codes), the per-layout line
extractors with their forward-fill state, the master-schema projector and
the extraction orchestrator (`src/app/features/extractor/ext_service.py`,
`src/app/utils/pdf_parser.py`, `src/app/utils/formatters.py`).

Python strings are embedded as `List Char` (`Str`).  Python `re` patterns
are embedded as abstract syntax trees (`RE`) interpreted by a fueled
backtracking matcher (`Re.run`) with Python semantics: leftmost match,
greedy/lazy quantifiers, ordered alternation, numbered capture groups
where the last participating occurrence wins.  `pandas` data frames are
embedded as a list of column names plus rows of (column, value)
association lists (`DF`).  Floats produced by Python `float(...)` on the
digit strings of this code base are embedded exactly as rationals.
-/

set_option maxRecDepth 10000
set_option maxHeartbeats 1000000

abbrev Str := List Char

namespace PyStr

/-- Python `str.strip()` (leading and trailing whitespace removed). -/
def trim (s : Str) : Str :=
  ((s.dropWhile Char.isWhitespace).reverse.dropWhile Char.isWhitespace).reverse

/-- Python `c in s` for a single character. -/
def hasChar (s : Str) (c : Char) : Bool := s.contains c

/-- Python substring test `needle in hay`. -/
def hasSub (needle hay : Str) : Bool :=
  match hay with
  | [] => needle.isEmpty
  | _ :: t => needle.isPrefixOf hay || hasSub needle t

/-- `hasSub` for a literal needle given as a `String`. -/
def hasSubL (needle : String) (hay : Str) : Bool := hasSub needle.data hay

/-- Whether any of the literal keywords occurs in the line
(`any(kw in line for kw in [...])`). -/
def hasAnySub (kws : List String) (hay : Str) : Bool :=
  kws.any (fun kw => hasSubL kw hay)

/-- First (leftmost) occurrence of `sep` in `l`: the part before it and the
part after it. -/
def splitFirst (sep : Str) : Str → Option (Str × Str)
  | [] => none
  | c :: t =>
    if sep.isPrefixOf (c :: t) then some ([], (c :: t).drop sep.length)
    else (splitFirst sep t).map (fun p => (c :: p.1, p.2))

/-- Fueled worker for `splitOnSep`. -/
def splitOnSepAux (sep : Str) : Nat → Str → List Str
  | 0, l => [l]
  | n + 1, l =>
    match splitFirst sep l with
    | none => [l]
    | some (a, b) => a :: splitOnSepAux sep n b

/-- Python `s.split(sep)` for a non-empty separator: split on every
non-overlapping occurrence, left to right (`"".split(sep) = [""]`). -/
def splitOnSep (sep : Str) (l : Str) : List Str := splitOnSepAux sep (l.length + 1) l

/-- Python `str.upper()` restricted to ASCII and the Latin-1 letters that
occur in this code base (the Latin-1 lowercase range `0xE0`–`0xFE` minus
the division sign maps down by 32, as in Unicode simple case folding). -/
def upperChar (c : Char) : Char :=
  if 'a' ≤ c ∧ c ≤ 'z' then Char.ofNat (c.toNat - 32)
  else if 0xE0 ≤ c.toNat ∧ c.toNat ≤ 0xFE ∧ c.toNat ≠ 0xF7 then Char.ofNat (c.toNat - 32)
  else c

/-- Python `str.lower()` on the same character repertoire. -/
def lowerChar (c : Char) : Char :=
  if 'A' ≤ c ∧ c ≤ 'Z' then Char.ofNat (c.toNat + 32)
  else if 0xC0 ≤ c.toNat ∧ c.toNat ≤ 0xDE ∧ c.toNat ≠ 0xD7 then Char.ofNat (c.toNat + 32)
  else c

/-- Python `str.upper()` on a string. -/
def upper (s : Str) : Str := s.map upperChar

/-- Python truthiness of an optional string (`None` and `""` are falsy). -/
def falsy : Option Str → Bool
  | none => true
  | some s => s.isEmpty

/-- Python `a or b` on optional strings: `b` when `a` is falsy. -/
def pyOr (a b : Option Str) : Option Str := if falsy a then b else a

end PyStr

/-! ## A small Python-`re` engine

Only the constructs used by the source patterns are supported: literal
characters, character classes, concatenation, ordered alternation,
greedy and lazy `*`/`+`/`?`/`{n,}`, numbered capture groups, the `^`/`$`
anchors and the `\b` word boundary.  The matcher is a classic
backtracking interpreter in continuation-passing style; `fuel` bounds the
nesting depth and is chosen large enough for every pattern/input pair
(each starred iteration must consume at least one character, exactly as
Python's `re` refuses to repeat an empty match). -/

namespace Re

/-- Regex abstract syntax. -/
inductive RE where
  | eps : RE
  | chr (c : Char) : RE
  | cls (p : Char → Bool) : RE
  | seq (a b : RE) : RE
  | alt (a b : RE) : RE
  | star (a : RE) (lazyQ : Bool) : RE
  | grp (n : Nat) (a : RE) : RE
  | bos : RE
  | eos : RE
  | wordB : RE

/-- Size of a pattern, used to compute a sufficient fuel. -/
def size : RE → Nat
  | .eps | .chr _ | .cls _ | .bos | .eos | .wordB => 1
  | .seq a b => size a + size b + 1
  | .alt a b => size a + size b + 1
  | .star a _ => size a + 1
  | .grp _ a => size a + 1

/-- Capture-group store: most recent capture of each group first. -/
abbrev Caps := List (Nat × Str)

/-- `m.group(n)`: `none` when the group did not participate in the match. -/
def group (caps : Caps) (n : Nat) : Option Str :=
  (caps.find? (fun p => p.1 == n)).map (fun p => p.2)

/-- `m.lastindex`: highest group number that participated (0 when none). -/
def lastindex (caps : Caps) : Nat := caps.foldl (fun a p => max a p.1) 0

/-- Python `\w` (modelled on the ASCII repertoire of the matched data). -/
def isWordChar (c : Char) : Bool := c.isAlphanum || c == '_'

/-- Word-ness of the character on one side of a position (`none` = edge). -/
def sideWord : Option Char → Bool
  | none => false
  | some c => isWordChar c

/-- The backtracking interpreter.  `prev` is the character just before the
current position (`none` at the start of the subject), so that `^` and
`\b` can be decided; `k` is the success continuation receiving the new
`prev`, the remaining subject and the captures. -/
def run (fuel : Nat) (r : RE) (prev : Option Char) (s : Str) (caps : Caps)
    (k : Option Char → Str → Caps → Option (Caps × Str)) : Option (Caps × Str) :=
  match fuel with
  | 0 => none
  | fuel + 1 =>
    match r with
    | .eps => k prev s caps
    | .chr c =>
      match s with
      | [] => none
      | x :: xs => if x = c then k (some x) xs caps else none
    | .cls p =>
      match s with
      | [] => none
      | x :: xs => if p x then k (some x) xs caps else none
    | .seq a b =>
      run fuel a prev s caps (fun prev1 s1 caps1 => run fuel b prev1 s1 caps1 k)
    | .alt a b =>
      match run fuel a prev s caps k with
      | some res => some res
      | none => run fuel b prev s caps k
    | .star a lazyQ =>
      let again := fun prev1 s1 caps1 =>
        if s1.length < s.length then run fuel (.star a lazyQ) prev1 s1 caps1 k else none
      if lazyQ then
        match k prev s caps with
        | some res => some res
        | none => run fuel a prev s caps again
      else
        match run fuel a prev s caps again with
        | some res => some res
        | none => k prev s caps
    | .grp n a =>
      run fuel a prev s caps
        (fun prev1 s1 caps1 => k prev1 s1 ((n, s.take (s.length - s1.length)) :: caps1))
    | .bos => if prev.isNone then k prev s caps else none
    | .eos => if s.isEmpty then k prev s caps else none
    | .wordB =>
      if sideWord prev != sideWord s.head? then k prev s caps else none

/-- Fuel sufficient for a pattern over a subject. -/
def fuelFor (r : RE) (s : Str) : Nat := (size r + 4) * (2 * s.length + 8)

/-- Python `pattern.match(s)` (anchored at the start): the captures and the
rest of the subject after the match. -/
def reMatch (r : RE) (s : Str) : Option (Caps × Str) :=
  run (fuelFor r s) r none s [] (fun _ rest caps => some (caps, rest))

/-- Worker for `search`: try a match at every position, left to right. -/
def searchAux (r : RE) : Nat → Option Char → Str → Option (Caps × Str)
  | 0, _, _ => none
  | n + 1, prev, s =>
    match run (fuelFor r s) r prev s [] (fun _ rest caps => some (caps, rest)) with
    | some res => some res
    | none =>
      match s with
      | [] => none
      | c :: rest => searchAux r n (some c) rest

/-- Python `pattern.search(s)`: leftmost match anywhere in the subject. -/
def search (r : RE) (s : Str) : Option (Caps × Str) :=
  searchAux r (s.length + 1) none s

/-- Worker for `sub`.  On a (necessarily non-empty) match the replacement
is emitted and scanning resumes after the match.  None of the substituted
source patterns uses `^` or `\b`, so `prev` needs no precise tracking. -/
def subAux (r : RE) (repl : Str) : Nat → Str → Str
  | 0, s => s
  | _ + 1, [] => []
  | n + 1, c :: rest0 =>
    match reMatch r (c :: rest0) with
    | some (_, rest) =>
      if rest.length < (c :: rest0).length then repl ++ subAux r repl n rest
      else c :: subAux r repl n rest0
    | none => c :: subAux r repl n rest0

/-- Python `re.sub(pattern, repl, s)` for the patterns of this code base
(all of which match at least one character). -/
def sub (r : RE) (repl : Str) (s : Str) : Str := subAux r repl (s.length + 1) s

/-- `r?` (greedy). -/
def opt (r : RE) : RE := .alt r .eps

/-- `r+` (greedy or lazy according to `lazyQ`). -/
def plus (r : RE) (lazyQ : Bool) : RE := .seq r (.star r lazyQ)

/-- `r{n}`. -/
def rexact : Nat → RE → RE
  | 0, _ => .eps
  | 1, r => r
  | n + 1, r => .seq r (rexact n r)

/-- `r{n,}` (greedy). -/
def atLeast (n : Nat) (r : RE) : RE := .seq (rexact n r) (.star r false)

/-- A literal string. -/
def str (s : String) : RE :=
  (s.data.map RE.chr).foldr .seq .eps

/-- A case-insensitive literal string (re.IGNORECASE). -/
def istr (s : String) : RE :=
  (s.data.map (fun c => RE.cls (fun x => PyStr.lowerChar x == PyStr.lowerChar c))).foldr
    .seq .eps

/-- Ordered alternation of a list of branches (first branch preferred). -/
def alts : List RE → RE
  | [] => .eps
  | [r] => r
  | r :: t => .alt r (alts t)

/-- Character-class combinators. -/
def dDigit : RE := .cls Char.isDigit

/-- `[A-Z]` (ASCII only, as in Python without `re.UNICODE` classes). -/
def dUpper : RE := .cls (fun c => 'A' ≤ c ∧ c ≤ 'Z')

/-- `\s`. -/
def dWs : RE := .cls Char.isWhitespace

/-- `\w`. -/
def dWord : RE := .cls isWordChar

/-- `.` (any character but newline). -/
def dot : RE := .cls (fun c => c != '\n')

/-- `[...]` built from an explicit character list. -/
def clsOf (cs : String) : RE := .cls (fun c => cs.data.contains c)

/-- `[^\s]`. -/
def dNonWs : RE := .cls (fun c => !c.isWhitespace)

/-- Concatenation of a list of regexes. -/
def cat (l : List RE) : RE := l.foldr .seq .eps

end Re

/-! ## `app/utils/pdf_parser.py` -/

namespace PdfParser

open Re PyStr

/-- `_RE_ISRC_FULL = \b([A-Z]{2}-?[\w]{3}-?\d{2}-?\d{5})\b`. -/
def RE_ISRC_FULL : RE :=
  cat [.wordB, .grp 1 (cat [rexact 2 dUpper, opt (.chr '-'), rexact 3 dWord,
    opt (.chr '-'), rexact 2 dDigit, opt (.chr '-'), rexact 5 dDigit]), .wordB]

/-- `_RE_ISRC_LABEL = ISRC\s+([A-Z]{2}[\w-]+)`. -/
def RE_ISRC_LABEL : RE :=
  cat [str "ISRC", plus dWs false,
    .grp 1 (cat [rexact 2 dUpper, plus (.alt dWord (.chr '-')) false])]

/-- `extract_isrc_from_line`: label-prefixed pattern first, then the bare
ISRC shape; `None` on an empty line or no match. -/
def extract_isrc_from_line (line : Str) : Option Str :=
  if line.isEmpty then none
  else
    match search RE_ISRC_LABEL line with
    | some r => (group r.1 1).map trim
    | none =>
      match search RE_ISRC_FULL line with
      | some r => (group r.1 1).map trim
      | none => none

/-- Ordered index scan for `extract_isrc_from_window`: first code found
wins, the centre index is skipped. -/
def windowScan (lines : List Str) (i : Nat) : List Nat → Option Str
  | [] => none
  | j :: t =>
    if j = i then windowScan lines i t
    else
      match extract_isrc_from_line (lines.getD j []) with
      | some c => some c
      | none => windowScan lines i t

/-- `extract_isrc_from_window(lines, current_index, window_size=2)`: scan
`range(max(0, i-w), min(len(lines), i+w+1))` skipping `i` itself. -/
def extract_isrc_from_window (lines : List Str) (i : Nat) (w : Nat) : Option Str :=
  windowScan lines i (List.range' (i - w) (min lines.length (i + w + 1) - (i - w)))

/-- Numeric value of a digit string. -/
def digitsToNat (l : Str) : Nat := l.foldl (fun a c => a * 10 + (c.toNat - 48)) 0

/-- Python `float(s)` on the strings reaching it in `clean_monetary_value`
(alphabet: digits, `.`, `-`): an optional leading minus, then
`digits [. digits]` with at least one digit; anything else raises
`ValueError`, embedded as `none`.  The value is exact, as a rational. -/
def pyFloat (s : Str) : Option ℚ :=
  let (neg, rest) :=
    match s with
    | '-' :: t => (true, t)
    | _ => (false, s)
  let ip := rest.takeWhile Char.isDigit
  let q : Str → Str → Option ℚ := fun ipart fpart =>
    if ipart.isEmpty ∧ fpart.isEmpty then none
    else
      let v : ℚ := (digitsToNat ipart : ℚ) + (digitsToNat fpart : ℚ) / (10 : ℚ) ^ fpart.length
      some (if neg then -v else v)
  match rest.dropWhile Char.isDigit with
  | [] => q ip []
  | '.' :: frac => if frac.all Char.isDigit then q ip frac else none
  | _ => none

/-- `re.sub(r"[^\d.,\-]", "", val)`: a single-character class substituted
by the empty string is a character filter. -/
def stripNonNumeric (s : Str) : Str :=
  s.filter (fun c => c.isDigit || c == '.' || c == ',' || c == '-')

/-- `clean_monetary_value`: placeholder tokens (`---`, `-`, empty, `None`)
and unparsable inputs map to `none`; otherwise Brazilian-format
normalization (`1.234,56 -> 1234.56`) followed by `float(...)`. -/
def clean_monetary_value (value : Str) : Option ℚ :=
  if value.isEmpty then none
  else
    let val := trim value
    if val = "---".data ∨ val = "-".data ∨ val = [] ∨ val = "None".data then none
    else
      let numeric := stripNonNumeric val
      if numeric.isEmpty then none
      else
        let numeric :=
          if numeric.contains ',' then
            if numeric.contains '.' then
              (numeric.filter (fun c => c != '.')).map (fun c => if c = ',' then '.' else c)
            else numeric.map (fun c => if c = ',' then '.' else c)
          else numeric
        pyFloat numeric

/-- Worker for `clean_text`: `re.sub(r"\s+", " ", text)` replaces every
maximal whitespace run by one space (`inWs` remembers an open run). -/
def collapseWsAux : Bool → Str → Str
  | _, [] => []
  | inWs, c :: t =>
    if c.isWhitespace then
      if inWs then collapseWsAux true t else ' ' :: collapseWsAux true t
    else c :: collapseWsAux false t

/-- `clean_text`: collapse whitespace runs, strip, empty result is `None`. -/
def clean_text (text : Option Str) : Option Str :=
  match text with
  | none => none
  | some s =>
    if s.isEmpty then none
    else
      let s2 := trim (collapseWsAux false s)
      if s2.isEmpty then none else some s2

/-- Header metadata extracted once from the first page
(`extract_header_info`). -/
structure HeaderInfo where
  titular : Option Str := none
  cnpj_cpf : Option Str := none
  demonstrativo_numero : Option Str := none
  cae_ipi : Option Str := none
  pseudonimo : Option Str := none
  cod_ecad : Option Str := none
  periodo_distribuicao : Option Str := none
  valor_total : Option Str := none
  associacao : Option Str := none

/-- `[A-ZÇ]` under `re.IGNORECASE`. -/
def clsUpperC : RE := .cls (fun c => ('A' ≤ upperChar c ∧ upperChar c ≤ 'Z') || upperChar c == 'Ç')

/-- `(?:DIREITOS AUTORAIS|TOTAL[:\s]*)\s*([A-ZÇ]+/\d{4})` (IGNORECASE). -/
def reHdrPeriodo : RE :=
  cat [.alt (istr "DIREITOS AUTORAIS")
        (.seq (istr "TOTAL") (.star (.cls (fun c => c == ':' || c.isWhitespace)) false)),
    .star dWs false,
    .grp 1 (cat [plus clsUpperC false, .chr '/', rexact 4 dDigit])]

/-- `^[A-ZÇ]+/\d{4}$` (IGNORECASE), applied to the stripped line. -/
def reHdrPeriodoOnly : RE := cat [plus clsUpperC false, .chr '/', rexact 4 dDigit, .eos]

/-- `TOTAL[:\s]*([\d.,]+)` (IGNORECASE). -/
def reHdrTotal : RE :=
  cat [istr "TOTAL", .star (.cls (fun c => c == ':' || c.isWhitespace)) false,
    .grp 1 (plus (clsOf "0123456789.,") false)]

/-- `^([A-Z\s]+?)\s+(?:CNPJ/CPF:|CAE/IPI:)\s*([\d./\-]+)` (class written
`[\d.\x2d/]` in the source). -/
def reHdrTitular : RE :=
  cat [.bos, .grp 1 (plus (.alt dUpper dWs) true), plus dWs false,
    .alt (str "CNPJ/CPF:") (str "CAE/IPI:"), .star dWs false,
    .grp 2 (plus (clsOf "0123456789.-/") false)]

/-- `DEMONSTRATIVO\s+N[ºo]?:\s*([\d\s/]+)` (IGNORECASE). -/
def reHdrDemonstrativo : RE :=
  cat [istr "DEMONSTRATIVO", plus dWs false, istr "N",
    opt (.cls (fun c => c == 'º' || lowerChar c == 'o')), .chr ':', .star dWs false,
    .grp 1 (plus (.cls (fun c => c.isDigit || c.isWhitespace || c == '/')) false)]

/-- `CAE/IPI:\s*(\d+)`. -/
def reHdrCae : RE :=
  cat [str "CAE/IPI:", .star dWs false, .grp 1 (plus dDigit false)]

/-- `^([A-Z\s]+?)\s+COD ECAD:\s*(\d+)`. -/
def reHdrPseudo : RE :=
  cat [.bos, .grp 1 (plus (.alt dUpper dWs) true), plus dWs false,
    str "COD ECAD:", .star dWs false, .grp 2 (plus dDigit false)]

/-- `ASSOCIA[CÇ][AÃ]O\s*:\s*(.+)` (IGNORECASE). -/
def reHdrAssoc : RE :=
  cat [istr "ASSOCIA", .cls (fun c => lowerChar c == 'c' || lowerChar c == 'ç'),
    .cls (fun c => lowerChar c == 'a' || lowerChar c == 'ã'), istr "O",
    .star dWs false, .chr ':', .star dWs false, .grp 1 (plus dot false)]

/-- `TITULAR:\s*(\d+)\s+(.+?)(?:\s+CATEGORIA:|\s+PSEUD[OÔ]NIMO:|$)` (IGNORECASE). -/
def reHdrTitAnalitico : RE :=
  cat [istr "TITULAR:", .star dWs false, .grp 1 (plus dDigit false), plus dWs false,
    .grp 2 (plus dot true),
    alts [.seq (plus dWs false) (istr "CATEGORIA:"),
      cat [plus dWs false, istr "PSEUD", .cls (fun c => lowerChar c == 'o' || lowerChar c == 'ô'),
        istr "NIMO:"],
      .eos]]

/-- One line of `extract_header_info`'s loop, updating the accumulated
header info in source order. -/
def headerLineStep (info : HeaderInfo) (line : Str) : HeaderInfo :=
  let info :=
    if falsy info.periodo_distribuicao then
      match search reHdrPeriodo line with
      | some r => { info with periodo_distribuicao := (group r.1 1).map trim }
      | none =>
        if (reMatch reHdrPeriodoOnly (trim line)).isSome then
          { info with periodo_distribuicao := some (trim line) }
        else info
    else info
  let info :=
    if falsy info.valor_total then
      match search reHdrTotal line with
      | some r => { info with valor_total := (group r.1 1).map trim }
      | none => info
    else info
  let info :=
    match search reHdrTitular line with
    | some r =>
      let info := { info with titular := (group r.1 1).map trim }
      if hasSubL "CNPJ/CPF:" line then { info with cnpj_cpf := (group r.1 2).map trim }
      else info
    | none => info
  let info :=
    match search reHdrDemonstrativo line with
    | some r => { info with demonstrativo_numero := (group r.1 1).map trim }
    | none => info
  let info :=
    match search reHdrCae line with
    | some r => { info with cae_ipi := (group r.1 1).map trim }
    | none => info
  let info :=
    match search reHdrPseudo line with
    | some r =>
      let info :=
        if falsy info.titular then { info with pseudonimo := (group r.1 1).map trim } else info
      { info with cod_ecad := (group r.1 2).map trim }
    | none => info
  let info :=
    match search reHdrAssoc line with
    | some r => { info with associacao := (group r.1 1).map trim }
    | none => info
  let info :=
    match search reHdrTitAnalitico line with
    | some r =>
      if falsy info.titular then { info with titular := (group r.1 2).map trim } else info
    | none => info
  info

/-- `extract_header_info(first_page_text)`. -/
def extract_header_info (first_page_text : Str) : HeaderInfo :=
  (splitOnSep ['\n'] first_page_text).foldl headerLineStep {}

end PdfParser

/-! ## `app/utils/formatters.py`

`pandas` data frames are embedded as `DF`: an ordered list of column
names plus one association list per row.  A column assignment
(`df[c] = ...`) replaces the entry of every row (appending the column
name when new), exactly like the broadcasting / aligned assignments used
by the source.  A missing entry reads as `Val.null` (pandas `NaN`). -/

/-- A cell value: `null` embeds both Python `None` and pandas `NaN`. -/
inductive Val where
  | null : Val
  | str (s : Str) : Val
  | num (q : ℚ) : Val
deriving DecidableEq

/-- Python `None`-or-`str` to cell value. -/
def Val.ofOptStr : Option Str → Val
  | none => .null
  | some s => .str s

/-- Python `None`-or-`float` to cell value. -/
def Val.ofOptQ : Option ℚ → Val
  | none => .null
  | some q => .num q

/-- One data-frame row: column name / value pairs in insertion order. -/
abbrev DRow := List (String × Val)

/-- Value of a column in a row (`Val.null` when absent, i.e. pandas NaN). -/
def lookupRow (r : DRow) (c : String) : Val :=
  match r.find? (fun p => p.1 == c) with
  | some p => p.2
  | none => .null

/-- Set a column of a row (replace in place, or append when new). -/
def rowSet (r : DRow) (c : String) (v : Val) : DRow :=
  if r.any (fun p => p.1 == c) then
    r.map (fun p => if p.1 == c then (c, v) else p)
  else r ++ [(c, v)]

/-- An embedded `pandas.DataFrame`. -/
structure DF where
  cols : List String
  rows : List DRow
deriving DecidableEq

/-- `df[c] = f(row)` — column assignment (broadcast scalars are the
constant function). -/
def DF.setCol (df : DF) (c : String) (f : DRow → Val) : DF :=
  ⟨if df.cols.contains c then df.cols else df.cols ++ [c],
    df.rows.map (fun r => rowSet r c (f r))⟩

/-- `pd.DataFrame(rows)` for a list of dicts: columns in first-encounter
order of the keys. -/
def encounterCols (rows : List DRow) : List String :=
  rows.foldl (fun acc r => acc ++ ((r.map Prod.fst).filter (fun c => !acc.contains c))) []

/-- `pd.DataFrame(rows)`. -/
def dfOfRows (rows : List DRow) : DF := ⟨encounterCols rows, rows⟩

namespace Formatters

open Re PyStr

/-- `MASTER_SCHEMA_COLUMNS` — the fixed output schema, in order. -/
def MASTER_SCHEMA_COLUMNS : List String :=
  ["titular", "documento_origem", "arquivo_origem", "obra_referencia", "rubrica",
   "periodo", "periodo_inicial", "periodo_final", "rendimento", "percentual_rateio",
   "valor_rateio", "correcao", "execucoes", "categoria", "caracteristica",
   "isrc_iswc", "data_pagamento", "valor_bruto", "valor_liquido", "tipo_extracao"]

/-- A match of `\s+A\s+` at the head of `l`: the remainder after the
match.  With backtracking, `\s+` before a non-whitespace `A` matches
exactly the maximal whitespace run, so the greedy/lazy distinction
vanishes for this pattern. -/
def matchWsAWs (l : Str) : Option Str :=
  if (l.takeWhile Char.isWhitespace).isEmpty then none
  else
    match l.dropWhile Char.isWhitespace with
    | 'A' :: r2 =>
      if (r2.takeWhile Char.isWhitespace).isEmpty then none
      else some (r2.dropWhile Char.isWhitespace)
    | _ => none

/-- Worker for `re.sub(r"\s+A\s+", " - ", s)`: leftmost-first scan, the
replacement emitted for each non-overlapping match. -/
def subWsAWsAux : Nat → Str → Str
  | 0, l => l
  | _ + 1, [] => []
  | n + 1, c :: t =>
    match matchWsAWs (c :: t) with
    | some rest => ' ' :: '-' :: ' ' :: subWsAWsAux n rest
    | none => c :: subWsAWsAux n t

/-- `re.sub(r"\s+A\s+", " - ", s)`. -/
def subWsAWs (l : Str) : Str := subWsAWsAux (l.length + 1) l

/-- `format_period`: `"06/2024 A 08/2024" -> "06/2024 - 08/2024"`;
falsy input maps to `None`. -/
def format_period (period_str : Option Str) : Option Str :=
  match period_str with
  | none => none
  | some s => if s.isEmpty then none else some (subWsAWs (trim s))

/-- `split_period_range`: split a formatted period on `" - "` into
(start, end); a single month yields the same month twice; falsy input
yields `(None, None)`. -/
def split_period_range (period_str : Option Str) : Option Str × Option Str :=
  match period_str with
  | none => (none, none)
  | some s =>
    if s.isEmpty then (none, none)
    else
      match splitOnSep " - ".data s with
      | [a, b] => (some (trim a), some (trim b))
      | _ => (some (trim s), some (trim s))

/-- `split_period_range` lifted to cells, as used on the `periodo` column
(`df["periodo"].apply(split_period_range)`).  In the source the column
only ever holds strings or `None`; the `num` case is unreachable. -/
def splitValPair : Val → Val × Val
  | .str s =>
    let p := split_period_range (some s)
    (Val.ofOptStr p.1, Val.ofOptStr p.2)
  | .null => (.null, .null)
  | .num _ => (.null, .null)

/-- `if "tipo_extracao" not in df.columns: df["tipo_extracao"] = tipo_extracao`. -/
def addTipoExtracao (df : DF) (tipo : Str) : DF :=
  if df.cols.contains "tipo_extracao" then df
  else df.setCol "tipo_extracao" (fun _ => .str tipo)

/-- `if "titular" not in df.columns and titular: df["titular"] = titular`. -/
def addTitular (df : DF) (titular : Option Str) : DF :=
  match titular with
  | some t =>
    if !df.cols.contains "titular" ∧ !t.isEmpty then df.setCol "titular" (fun _ => .str t)
    else df
  | none => df

/-- `if "documento_origem" not in df.columns and documento_origem: …`. -/
def addDocumentoOrigem (df : DF) (documento_origem : Option Str) : DF :=
  match documento_origem with
  | some d =>
    if !df.cols.contains "documento_origem" ∧ !d.isEmpty then
      df.setCol "documento_origem" (fun _ => .str d)
    else df
  | none => df

/-- `if "arquivo_origem" not in df.columns: df["arquivo_origem"] = None`. -/
def addArquivoOrigem (df : DF) : DF :=
  if df.cols.contains "arquivo_origem" then df
  else df.setCol "arquivo_origem" (fun _ => .null)

/-- The period split: `df[["periodo_inicial", "periodo_final"]]` from
`df["periodo"].apply(split_period_range)` when the column exists, null
columns otherwise. -/
def addPeriodoSplit (df : DF) : DF :=
  if df.cols.contains "periodo" then
    (df.setCol "periodo_inicial" (fun r => (splitValPair (lookupRow r "periodo")).1)).setCol
      "periodo_final" (fun r => (splitValPair (lookupRow r "periodo")).2)
  else
    (df.setCol "periodo_inicial" (fun _ => .null)).setCol "periodo_final" (fun _ => .null)

/-- One step of `for col in MASTER_SCHEMA_COLUMNS: if col not in
df.columns: df[col] = None`. -/
def nullFillStep (d : DF) (c : String) : DF :=
  if d.cols.contains c then d else d.setCol c (fun _ => .null)

/-- `normalize_to_master_schema(df, tipo_extracao, titular=…,
documento_origem=…)`: context columns, period split, null-fill of the
fixed schema, then reorder with extras appended. -/
def normalize_to_master_schema (df : DF) (tipo : Str)
    (titular : Option Str) (documento_origem : Option Str) : DF :=
  if df.rows.isEmpty then ⟨MASTER_SCHEMA_COLUMNS, []⟩
  else
    let df4 := addArquivoOrigem
      (addDocumentoOrigem (addTitular (addTipoExtracao df tipo) titular) documento_origem)
    let df6 := MASTER_SCHEMA_COLUMNS.foldl nullFillStep (addPeriodoSplit df4)
    let extra := df6.cols.filter (fun c => !MASTER_SCHEMA_COLUMNS.contains c)
    ⟨MASTER_SCHEMA_COLUMNS ++ extra, df6.rows⟩

end Formatters

/-! ## `app/features/extractor/ext_service.py` -/

namespace ExtService

open Re PyStr PdfParser Formatters

/-- The text-layer provider's view of one document: the first page's text
(`extract_first_page_text`) and each page's text split into lines
(`extract_page_lines`). -/
structure PdfDoc where
  firstPageText : Str
  pageLines : List (List Str)

/-- `LayoutSignature`. -/
structure LayoutSignature where
  name : String
  keywords : List String
  priority : Nat
deriving DecidableEq, Repr

/-- `LAYOUT_SIGNATURES`, in declaration order. -/
def LAYOUT_SIGNATURES : List LayoutSignature :=
  [⟨"RELATORIO_ANALITICO_AUTORAL",
     ["RELATÓRIO ANALÍTICO DE TITULAR AUTORAL", "SUAS OBRAS"], 100⟩,
   ⟨"RELATORIO_ANALITICO_CONEXO",
     ["RELATÓRIO ANALÍTICO DE TITULAR CONEXO", "SUAS GRAVAÇÕES"], 100⟩,
   ⟨"DEMONSTRATIVO_SERVICOS_DIGITAIS",
     ["DEMONSTRATIVO DO TITULAR DE SERVIÇOS", "DIGITAIS"], 90⟩,
   ⟨"DEMONSTRATIVO_ANTECIPACAO_PRESCRITOS",
     ["DEMONSTRATIVO DO TITULAR", "ANTECIPAÇÃO DE PRESCRITOS"], 80⟩,
   ⟨"DISTRIBUICAO_PRESCRITIVEIS",
     ["DEMONSTRATIVO DO TITULAR", "DISTRIBUIÇÃO DE PRESCRITÍVEIS"], 70⟩,
   ⟨"DEMONSTRATIVO_TITULAR",
     ["DEMONSTRATIVO DO TITULAR", "EXECUÇÃO PÚBLICA"], 10⟩]

/-- A signature matches iff every keyword (upper-cased) is a substring of
the upper-cased first-page text. -/
def sigMatches (sig : LayoutSignature) (text_upper : Str) : Bool :=
  sig.keywords.all (fun kw => hasSub (upper kw.data) text_upper)

/-- `sorted(LAYOUT_SIGNATURES, key=lambda s: s.priority, reverse=True)`:
Python's stable descending sort, embedded as a stable insertion sort. -/
def sortedSignatures : List LayoutSignature :=
  List.insertionSort (fun a b => b.priority ≤ a.priority) LAYOUT_SIGNATURES

/-- `identify_layout`: `None` on empty first-page text, otherwise the name
of the first fully-matching signature in descending-priority order. -/
def identify_layout (first_page_text : Str) : Option String :=
  if first_page_text.isEmpty then none
  else
    let text_upper := upper first_page_text
    (sortedSignatures.find? (fun sig => sigMatches sig text_upper)).map
      (fun sig => sig.name)

/-! ### The standard-statement extractor `_extract_demonstrativo_padrao` -/

/-- `re_obra_header = ^(\d{5,})\s+(.+?)(?:\s+[\d.,]+\s*---|\s*$)`. -/
def re_obra_header : RE :=
  cat [.grp 1 (atLeast 5 dDigit), plus dWs false, .grp 2 (plus dot true),
    .alt (cat [plus dWs false, plus (clsOf "0123456789.,") false, .star dWs false, str "---"])
      (.seq (.star dWs false) .eos)]

/-- `re_data_line` — the standard data cascade (12 groups). -/
def re_data_line : RE :=
  cat [.grp 1 (plus dot true), plus dWs false,
    .grp 2 (.seq (atLeast 2 dUpper)
      (.star (.seq (plus dWs false) (plus (alts [dUpper, dDigit, .chr '-', .chr '/']) false))
        true)),
    plus dWs false,
    .grp 3 (cat [rexact 2 dDigit, .chr '/', rexact 4 dDigit,
      opt (cat [plus dWs false, .chr 'A', plus dWs false, rexact 2 dDigit, .chr '/',
        rexact 4 dDigit])]),
    plus dWs false,
    .grp 4 (plus (clsOf "0123456789.,-") false), plus dWs false,
    .grp 5 (plus (clsOf "0123456789.,-") false), plus dWs false,
    .grp 6 (plus (clsOf "0123456789.,-") false), plus dWs false,
    .grp 7 (str "---"), plus dWs false,
    .grp 8 (plus dot true), plus dWs false,
    .grp 9 dUpper, plus dWs false,
    .grp 10 (rexact 2 dUpper), .star dWs false,
    opt (.grp 11 (plus dNonWs false)), .star dWs false,
    opt (.grp 12 (rexact 2 dUpper)), .eos]

/-- The digital-platform names of `re_data_line_digital`. -/
def digitalPlatforms : List String :=
  ["SPOTIFY", "TIKTOK", "YOUTUBE", "DEEZER", "APPLE MUSIC", "AMAZON", "META", "KWAI",
   "CLARO MUSICA", "TIM MUSIC", "NAPSTER", "TIDAL", "FACEBOOK", "INSTAGRAM", "GOOGLE",
   "RESSO", "PALCO MP3", "GLOBO"]

/-- `re_data_line_digital` — the digital-services data cascade (10 groups). -/
def re_data_line_digital : RE :=
  cat [.grp 1 (plus dot true), plus dWs false,
    .grp 2 (alts (digitalPlatforms.map str)), .star dot true, plus dWs false,
    .grp 3 (cat [rexact 2 dDigit, .chr '/', rexact 4 dDigit,
      opt (cat [plus dWs false, .chr 'A', plus dWs false, rexact 2 dDigit, .chr '/',
        rexact 4 dDigit])]),
    plus dWs false,
    .grp 4 (plus (clsOf "0123456789.,-") false), plus dWs false,
    .grp 5 (plus (clsOf "0123456789.,-") false), plus dWs false,
    .grp 6 (plus (clsOf "0123456789.,-") false), plus dWs false,
    .grp 7 (str "---"), plus dWs false,
    .grp 8 (plus (.cls (fun c => c.isDigit || c.isWhitespace || c == '.' || c == ',' || c == '-')) false),
    plus dWs false,
    .grp 9 dUpper, plus dWs false,
    .grp 10 (rexact 2 dUpper)]

/-- `re_capitulo = CAP[IÍ]TULO:\s*(.+)`. -/
def re_capitulo : RE :=
  cat [str "CAP", clsOf "IÍ", str "TULO:", .star dWs false, .grp 1 (plus dot false)]

/-- `re_obra_header_simple = ^(\d{5,})\s+(.+)`. -/
def re_obra_header_simple : RE :=
  cat [.grp 1 (atLeast 5 dDigit), plus dWs false, .grp 2 (plus dot false)]

/-- `AP-|SPOTIFY|TIKTOK|YOUTUBE|DEEZER` (data-shape hint inside the
simplified work-header fallback). -/
def reDataHint : RE :=
  alts [str "AP-", str "SPOTIFY", str "TIKTOK", str "YOUTUBE", str "DEEZER"]

/-- `^(.+?)\s+([\d.,]+)\s*---\s*(.*)` (work header with trailing total). -/
def reTitleTotal : RE :=
  cat [.grp 1 (plus dot true), plus dWs false, .grp 2 (plus (clsOf "0123456789.,") false),
    .star dWs false, str "---", .star dWs false, .grp 3 (.star dot false)]

/-- `^(\d+)\s+%\s+([\d.,]+)\s*---` (percentage-shaped work header). -/
def rePercHeader : RE :=
  cat [.grp 1 (plus dDigit false), plus dWs false, .chr '%', plus dWs false,
    .grp 2 (plus (clsOf "0123456789.,") false), .star dWs false, str "---"]

/-- `([\d.,]+)\s+([\d.,]+)\s+([\d.,]+)\s+(---)\s+(\d+)\s+([A-Z])\s+([A-Z]{2})`
(value tail of a chapter line). -/
def reCapVals : RE :=
  cat [.grp 1 (plus (clsOf "0123456789.,") false), plus dWs false,
    .grp 2 (plus (clsOf "0123456789.,") false), plus dWs false,
    .grp 3 (plus (clsOf "0123456789.,") false), plus dWs false,
    .grp 4 (str "---"), plus dWs false,
    .grp 5 (plus dDigit false), plus dWs false,
    .grp 6 dUpper, plus dWs false,
    .grp 7 (rexact 2 dUpper)]

/-- `ISRC\s+[A-Z]{2}[\w-]+` (stripped out to test for a pure-ISRC line). -/
def reIsrcInline : RE :=
  cat [str "ISRC", plus dWs false, rexact 2 dUpper, plus (.alt dWord (.chr '-')) false]

/-- `\s+[\d.,]+\s*%?\s*[\d.,]*\s*---.*$` (trailing totals removed from a
work title). -/
def reTituloTrim : RE :=
  cat [plus dWs false, plus (clsOf "0123456789.,") false, .star dWs false, opt (.chr '%'),
    .star dWs false, .star (clsOf "0123456789.,") false, .star dWs false, str "---",
    .star dot false, .eos]

/-- Keywords that make a non-skipped line be ignored (page furniture). -/
def pageFurnitureKws : List String :=
  ["EXEC. - NÚM.", "AS INFORMAÇÕES REFERENTES", "ECAD.Tec", "DEMONSTRATIVO DO TITULAR",
   "DISTRIBUIÇÃO DE PRESCRITÍVEIS", "ANTECIPAÇÃO DE PRESCRITOS", "CNPJ/CPF:", "CAE/IPI:",
   "COD ECAD:", "OR.E", "TP."]

/-- Per-document context of `_extract_demonstrativo_padrao`. -/
structure ExtCtx where
  tipo : Str
  original_filename : Str
  titular : Option Str
  periodo_dist : Option Str

/-- The extractor's mutable parsing state (forward-fill cursor). -/
structure ExtState where
  skip : Bool
  obra_codigo : Option Str
  obra_titulo : Option Str
  isrc : Option Str
  rows : List DRow

/-- The row dict built for a matched data line (keys in source order). -/
def mkDataRow (ctx : ExtCtx) (st : ExtState) (caps : Caps) (isrc : Option Str) : DRow :=
  [("titular", Val.ofOptStr ctx.titular),
   ("documento_origem", .str ctx.tipo),
   ("arquivo_origem", .str ctx.original_filename),
   ("obra_referencia", Val.ofOptStr (pyOr st.obra_titulo st.obra_codigo)),
   ("obra_codigo", Val.ofOptStr st.obra_codigo),
   ("rubrica", Val.ofOptStr (clean_text (group caps 2))),
   ("periodo", Val.ofOptStr (format_period (group caps 3))),
   ("rendimento", Val.ofOptQ (clean_monetary_value ((group caps 4).getD []))),
   ("percentual_rateio", Val.ofOptQ (clean_monetary_value ((group caps 5).getD []))),
   ("valor_rateio", Val.ofOptQ (clean_monetary_value ((group caps 6).getD []))),
   ("correcao", .str (trim ((group caps 7).getD []))),
   ("execucoes", Val.ofOptStr (clean_text (group caps 8))),
   ("categoria", .str (trim ((group caps 9).getD []))),
   ("caracteristica", .str (trim ((group caps 10).getD []))),
   ("isrc_iswc", Val.ofOptStr isrc),
   ("data_pagamento", Val.ofOptStr ctx.periodo_dist),
   ("valor_bruto", Val.ofOptQ (clean_monetary_value ((group caps 4).getD []))),
   ("valor_liquido", Val.ofOptQ (clean_monetary_value ((group caps 6).getD []))),
   ("tipo_extracao", .str ctx.tipo),
   ("artista_gravacao", Val.ofOptStr (clean_text (group caps 1))),
   ("or_e_peso", if lastindex caps ≥ 11 then Val.ofOptStr (clean_text (group caps 11))
     else .null)]

/-- Python `str.split()` (no argument): whitespace runs, no empties. -/
def pySplitWsAux : Nat → Str → List Str
  | 0, _ => []
  | n + 1, s =>
    let s := s.dropWhile Char.isWhitespace
    if s.isEmpty then []
    else (s.takeWhile (fun c => !c.isWhitespace)) ::
      pySplitWsAux n (s.dropWhile (fun c => !c.isWhitespace))

/-- Python `str.split()`. -/
def pySplitWs (s : Str) : List Str := pySplitWsAux (s.length + 1) s

/-- The row dict built for a chapter (`CAPÍTULO:`) continuation line. -/
def mkCapRow (ctx : ExtCtx) (st : ExtState) (capGrp1 : Str) (caps : Caps) : DRow :=
  [("titular", Val.ofOptStr ctx.titular),
   ("documento_origem", .str ctx.tipo),
   ("obra_referencia", Val.ofOptStr (pyOr st.obra_titulo st.obra_codigo)),
   ("obra_codigo", Val.ofOptStr st.obra_codigo),
   ("rubrica",
     match pySplitWs capGrp1 with
     | [] => .null
     | t :: _ => .str ("CAPITULO:".data ++ t)),
   ("periodo", .null),
   ("rendimento", Val.ofOptQ (clean_monetary_value ((group caps 1).getD []))),
   ("percentual_rateio", Val.ofOptQ (clean_monetary_value ((group caps 2).getD []))),
   ("valor_rateio", Val.ofOptQ (clean_monetary_value ((group caps 3).getD []))),
   ("correcao", .str ((group caps 4).getD [])),
   ("execucoes", Val.ofOptStr (clean_text (group caps 5))),
   ("categoria", .str ((group caps 6).getD [])),
   ("caracteristica", .str ((group caps 7).getD [])),
   ("isrc_iswc", Val.ofOptStr st.isrc),
   ("data_pagamento", Val.ofOptStr ctx.periodo_dist),
   ("valor_bruto", Val.ofOptQ (clean_monetary_value ((group caps 1).getD []))),
   ("valor_liquido", Val.ofOptQ (clean_monetary_value ((group caps 3).getD []))),
   ("tipo_extracao", .str ctx.tipo),
   ("artista_gravacao", .null)]

/-- Data-line / chapter-line tail of the loop body (reached when no work
header matched). -/
def dataStep (ctx : ExtCtx) (lines : List Str) (st : ExtState) (line : Str) : ExtState :=
  let data_match :=
    match reMatch re_data_line line with
    | some m => some m
    | none => reMatch re_data_line_digital line
  match data_match with
  | some dm =>
    -- `line_idx = lines.index(line.strip()) if line.strip() in lines else -1`
    -- (note: `lines` holds the raw page lines, `line` is already stripped)
    let isrc :=
      if st.isrc.isNone then
        if lines.contains line then
          extract_isrc_from_window lines (lines.indexOf line) 2
        else none
      else st.isrc
    { st with rows := st.rows ++ [mkDataRow ctx st dm.1 isrc], isrc := none }
  | none =>
    match reMatch re_capitulo line with
    | some cm =>
      let rest := (group cm.1 1).getD []
      match Re.search reCapVals rest with
      | some vm =>
        { st with rows := st.rows ++ [mkCapRow ctx st rest vm.1], isrc := none }
      | none => st
    | none => st

/-- One iteration of the line loop of `_extract_demonstrativo_padrao`. -/
def processLine (ctx : ExtCtx) (lines : List Str) (st : ExtState) (raw : Str) : ExtState :=
  let line := trim raw
  if line.isEmpty then st
  else if st.skip then
    -- in skip mode every line is consumed; the column-header line
    -- (`OBRA` + `RUBRICA`/`RENDIMENTO`/`PERÍODO`) ends the header band
    if hasSubL "OBRA" line ∧
        (hasSubL "RUBRICA" line ∨ hasSubL "RENDIMENTO" line ∨ hasSubL "PERÍODO" line) then
      { st with skip := false }
    else st
  else if hasSubL "DISTRIBUIÇÃO DE DIREITOS" line then { st with skip := true }
  else if hasAnySub pageFurnitureKws line then st
  else
    let isrcDet := extract_isrc_from_line line
    let st1 :=
      match isrcDet with
      | some c => { st with isrc := some c }
      | none => st
    let pureIsrcLine :=
      match isrcDet with
      | some _ =>
        let cleaned := trim (Re.sub reIsrcInline [] line)
        cleaned.isEmpty || cleaned.length < 5
      | none => false
    if pureIsrcLine then st1
    else
      match reMatch re_obra_header line with
      | some m =>
        let titulo_raw := trim ((group m.1 2).getD [])
        let titulo_clean := Re.sub reTituloTrim [] titulo_raw
        { st1 with
          obra_codigo := group m.1 1
          obra_titulo := clean_text (some titulo_clean)
          isrc := none }
      | none =>
        match reMatch re_obra_header_simple line with
        | some sm =>
          let candidate_code := group sm.1 1
          let candidate_rest := trim ((group sm.1 2).getD [])
          if (Re.search reDataHint candidate_rest).isSome then
            dataStep ctx lines st1 line
          else
            match reMatch reTitleTotal candidate_rest with
            | some tm =>
              { st1 with
                obra_codigo := candidate_code
                obra_titulo := clean_text (group tm.1 1)
                isrc := none }
            | none =>
              match reMatch rePercHeader candidate_rest with
              | some _ =>
                { st1 with
                  obra_codigo := candidate_code
                  obra_titulo := none
                  isrc := none }
              | none => dataStep ctx lines st1 line
        | none => dataStep ctx lines st1 line

/-- `_extract_demonstrativo_padrao(pdf_path, tipo, original_filename)`. -/
def extract_demonstrativo_padrao (doc : PdfDoc) (tipo : Str)
    (original_filename : Str) : DF :=
  let hi := extract_header_info doc.firstPageText
  let ctx : ExtCtx := ⟨tipo, original_filename, hi.titular, hi.periodo_distribuicao⟩
  let final := doc.pageLines.foldl
    (fun st lines => lines.foldl (processLine ctx lines) { st with skip := true })
    ⟨true, none, none, none, []⟩
  if final.rows.isEmpty then ⟨MASTER_SCHEMA_COLUMNS, []⟩
  else normalize_to_master_schema (dfOfRows final.rows) tipo hi.titular (some tipo)

/-- `_extract_demonstrativo_titular`. -/
def extract_demonstrativo_titular (doc : PdfDoc) (original_filename : Str) : DF :=
  extract_demonstrativo_padrao doc "DEMONSTRATIVO_TITULAR".data original_filename

/-- `_extract_distribuicao_prescritiveis`. -/
def extract_distribuicao_prescritiveis (doc : PdfDoc) (original_filename : Str) : DF :=
  extract_demonstrativo_padrao doc "DISTRIBUICAO_PRESCRITIVEIS".data original_filename

/-- `_extract_antecipacao_prescritos`. -/
def extract_antecipacao_prescritos (doc : PdfDoc) (original_filename : Str) : DF :=
  extract_demonstrativo_padrao doc "DEMONSTRATIVO_ANTECIPACAO_PRESCRITOS".data
    original_filename

/-- `_extract_servicos_digitais`. -/
def extract_servicos_digitais (doc : PdfDoc) (original_filename : Str) : DF :=
  extract_demonstrativo_padrao doc "DEMONSTRATIVO_SERVICOS_DIGITAIS".data original_filename

end ExtService

namespace ExtService

open Re PyStr PdfParser Formatters

/-! ### `_extract_relatorio_analitico_autoral` -/

/-- `ABRAMUS|UBC|SBACEM|SOCINPRO|AMAR|SADEMBRA|ASSIM`. -/
def reAssoc : RE :=
  alts [str "ABRAMUS", str "UBC", str "SBACEM", str "SOCINPRO", str "AMAR",
    str "SADEMBRA", str "ASSIM"]

/-- `ORIGINAL|VERSAO|ARRANJO|COMPILACAO|TRILHA|PARODIA|MEDLEY`. -/
def reTipoObra : RE :=
  alts [str "ORIGINAL", str "VERSAO", str "ARRANJO", str "COMPILACAO", str "TRILHA",
    str "PARODIA", str "MEDLEY"]

/-- `SIM|NÃO|NAO`. -/
def reSimNao : RE := alts [str "SIM", str "NÃO", str "NAO"]

/-- `T-[\d.\x2d]+` (an ISWC token). -/
def reIswcTok : RE := .seq (str "T-") (plus (clsOf "0123456789.-") false)

/-- `\d{2}/\d{2}/\d{4}` (an inclusion date). -/
def reDate : RE :=
  cat [rexact 2 dDigit, .chr '/', rexact 2 dDigit, .chr '/', rexact 4 dDigit]

/-- `re_obra` of the authorial analytical report (8 groups). -/
def re_obra : RE :=
  cat [.grp 1 (atLeast 5 dDigit), plus dWs false,
    opt (.grp 2 reIswcTok), .star dWs false,
    .grp 3 (plus dot true), plus dWs false,
    .grp 4 reAssoc, plus dWs false,
    .grp 5 (cat [plus dWord false, opt (.seq (.chr '/') (plus dWord false))]), plus dWs false,
    opt (.grp 6 reTipoObra), .star dWs false,
    opt (.grp 7 reSimNao), .star dWs false,
    opt (.grp 8 reDate)]

/-- `re_obra_simple` (8 groups, `$`-anchored). -/
def re_obra_simple : RE :=
  cat [.grp 1 (atLeast 5 dDigit), plus dWs false,
    .grp 2 reIswcTok, plus dWs false,
    .grp 3 (plus dot true),
    opt (.seq (plus dWs false) (.grp 4 reAssoc)),
    opt (.seq (plus dWs false)
      (.grp 5 (cat [plus dWord false, opt (.chr '/'), .star dWord false]))),
    opt (.seq (plus dWs false) (.grp 6 (.alt (str "ORIGINAL") (str "VERSAO")))),
    .star dWs false, opt (.grp 7 reSimNao),
    .star dWs false, opt (.grp 8 reDate), .star dWs false, .eos]

/-- `re_obra_no_iswc` (7 groups, `$`-anchored). -/
def re_obra_no_iswc : RE :=
  cat [.grp 1 (atLeast 5 dDigit), plus dWs false,
    .grp 2 (plus dot true),
    opt (.seq (plus dWs false) (.grp 3 reAssoc)),
    plus dWs false,
    .grp 4 (alts [str "LB", str "BL", str "BL/DU", str "DU", str "LB/DU"]),
    plus dWs false, opt (.grp 5 reTipoObra),
    .star dWs false, opt (.grp 6 reSimNao),
    .star dWs false, opt (.grp 7 reDate), .star dWs false, .eos]

/-- `[A-Z\s.]` (class of the pseudonym group). -/
def clsUpperWsDot : RE :=
  .cls (fun c => ('A' ≤ c ∧ c ≤ 'Z') || c.isWhitespace || c == '.')

/-- `re_participante` of the authorial report (7 groups). -/
def re_participante : RE :=
  cat [.grp 1 (atLeast 4 dDigit), plus dWs false,
    .grp 2 (plus dot true), plus dWs false,
    .grp 3 (.seq dUpper (plus clsUpperWsDot true)), plus dWs false,
    .grp 4 (cat [rexact 5 dDigit, .chr '.', rexact 2 dDigit, .chr '.', rexact 2 dDigit,
      .chr '.', rexact 2 dDigit]), plus dWs false,
    .grp 5 reAssoc, plus dWs false,
    .grp 6 (.seq dUpper (opt dUpper)), plus dWs false,
    .grp 7 (plus (clsOf "0123456789.,") false)]

/-- `^\d{5,}` (fallback: line starts with a long code). -/
def reLongCode : RE := atLeast 5 dDigit

/-- `(T-[\d.\x2d]+)\s+(.*)` (fallback ISWC + rest). -/
def reIswcRest : RE :=
  cat [.grp 1 reIswcTok, plus dWs false, .grp 2 (.star dot false)]

/-- Skip keywords of the authorial report loop. -/
def autoralSkipKws : List String :=
  ["RELATÓRIO ANALÍTICO", "ASSOCIAÇÃO:", "TITULAR:", "CÓD. OBRA", "CONTRATO",
   "CÓD. ECAD", "CÓDIGO", "NOME DO TITULAR", "* SITUAÇÃO", "CLASSIFICAÇÃO DA OBRA",
   "Pag ", "ECAD.Tec"]

/-- `s.split(marker)[0]` (prefix before the first occurrence). -/
def cutAt (marker : String) (s : Str) : Str :=
  match splitOnSep marker.data s with
  | [] => s
  | h :: _ => h

/-- `" ".join(parts)`. -/
def joinSp (parts : List Str) : Str := List.intercalate [' '] parts

/-- Forward-fill state of the authorial analytical extractor.  The source
also declares `current_situacao` / `current_tipo_obra` / `current_nacional`
but never assigns or reads them; `in_data` is assigned but never read. -/
structure AutState where
  in_data : Bool
  obra_codigo : Option Str
  obra_titulo : Option Str
  iswc : Option Str
  rows : List DRow

/-- Participant row of the authorial report (fallback variant, without
`arquivo_origem`). -/
def mkAutRow1 (titular : Option Str) (st : AutState) (caps : Caps) : DRow :=
  [("titular", Val.ofOptStr titular),
   ("documento_origem", .str "RELATORIO_ANALITICO_AUTORAL".data),
   ("obra_referencia", Val.ofOptStr st.obra_titulo),
   ("obra_codigo", Val.ofOptStr st.obra_codigo),
   ("isrc_iswc", Val.ofOptStr st.iswc),
   ("cod_ecad_participante", .str ((group caps 1).getD [])),
   ("nome_participante", Val.ofOptStr (clean_text (group caps 2))),
   ("pseudonimo_participante", Val.ofOptStr (clean_text (group caps 3))),
   ("cae_participante", .str ((group caps 4).getD [])),
   ("associacao_participante", .str ((group caps 5).getD [])),
   ("categoria", .str ((group caps 6).getD [])),
   ("percentual_rateio", Val.ofOptQ (clean_monetary_value ((group caps 7).getD []))),
   ("tipo_extracao", .str "RELATORIO_ANALITICO_AUTORAL".data)]

/-- Participant row of the authorial report (main variant, with
`arquivo_origem`). -/
def mkAutRow2 (titular : Option Str) (orig : Str) (st : AutState) (caps : Caps) : DRow :=
  [("titular", Val.ofOptStr titular),
   ("documento_origem", .str "RELATORIO_ANALITICO_AUTORAL".data),
   ("arquivo_origem", .str orig),
   ("obra_referencia", Val.ofOptStr st.obra_titulo),
   ("obra_codigo", Val.ofOptStr st.obra_codigo),
   ("isrc_iswc", Val.ofOptStr st.iswc),
   ("cod_ecad_participante", .str ((group caps 1).getD [])),
   ("nome_participante", Val.ofOptStr (clean_text (group caps 2))),
   ("pseudonimo_participante", Val.ofOptStr (clean_text (group caps 3))),
   ("cae_participante", .str ((group caps 4).getD [])),
   ("associacao_participante", .str ((group caps 5).getD [])),
   ("categoria", .str ((group caps 6).getD [])),
   ("percentual_rateio", Val.ofOptQ (clean_monetary_value ((group caps 7).getD []))),
   ("tipo_extracao", .str "RELATORIO_ANALITICO_AUTORAL".data)]

/-- Title tokens of the assumed-work fallback stop at these keywords. -/
def autoralStopToks : List String :=
  ["ABRAMUS", "UBC", "SBACEM", "SOCINPRO", "LB", "BL", "DU", "ORIGINAL", "VERSAO",
   "SIM", "NÃO", "NAO"]

/-- One iteration of the authorial report's line loop. -/
def autLineStep (titular : Option Str) (orig : Str) (st : AutState) (raw : Str) :
    AutState :=
  let line := trim raw
  if line.isEmpty then st
  else if hasAnySub autoralSkipKws line then
    if hasSubL "CÓD. OBRA" line || hasSubL "CÓDIGO" line then { st with in_data := true }
    else st
  else
    let st := { st with in_data := true }
    let obra_match :=
      match reMatch re_obra line with
      | some m => some m
      | none =>
        match reMatch re_obra_simple line with
        | some m => some m
        | none => reMatch re_obra_no_iswc line
    match obra_match with
    | some m =>
      let st := { st with obra_codigo := group m.1 1 }
      if lastindex m.1 ≥ 3 then
        { st with
          iswc := if falsy (group m.1 2) then none else group m.1 2
          obra_titulo := clean_text (group m.1 3) }
      else { st with obra_titulo := clean_text (group m.1 2) }
    | none =>
      if (reMatch reLongCode line).isSome then
        let parts := pySplitWs line
        if parts.length ≥ 2 then
          let code := parts.headD []
          let rest_text := joinSp parts.tail
          match reMatch reIswcRest rest_text with
          | some im =>
            { st with
              obra_codigo := some code
              iswc := group im.1 1
              obra_titulo := clean_text (some (trim (cutAt "SOCINPRO" (cutAt "SBACEM"
                (cutAt "UBC" (cutAt "ABRAMUS" ((group im.1 2).getD []))))))) }
          | none =>
            match reMatch re_participante line with
            | some pm => { st with rows := st.rows ++ [mkAutRow1 titular st pm.1] }
            | none =>
              let titulo_tokens := (pySplitWs rest_text).takeWhile
                (fun t => !(autoralStopToks.map String.data).contains t)
              { st with
                obra_codigo := some code
                iswc := none
                obra_titulo := if titulo_tokens.isEmpty then none
                  else clean_text (some (joinSp titulo_tokens)) }
        else
          match reMatch re_participante line with
          | some pm => { st with rows := st.rows ++ [mkAutRow2 titular orig st pm.1] }
          | none => st
      else
        match reMatch re_participante line with
        | some pm => { st with rows := st.rows ++ [mkAutRow2 titular orig st pm.1] }
        | none => st

/-- `_extract_relatorio_analitico_autoral`. -/
def extract_relatorio_analitico_autoral (doc : PdfDoc) (original_filename : Str) : DF :=
  let hi := extract_header_info doc.firstPageText
  let final := doc.pageLines.foldl
    (fun st lines => lines.foldl (autLineStep hi.titular original_filename)
      { st with in_data := false })
    ⟨false, none, none, none, []⟩
  if final.rows.isEmpty then ⟨MASTER_SCHEMA_COLUMNS, []⟩
  else
    normalize_to_master_schema (dfOfRows final.rows) "RELATORIO_ANALITICO_AUTORAL".data
      hi.titular none

/-! ### `_extract_relatorio_analitico_conexo` -/

/-- `re_gravacao` (6 groups, `$`-anchored). -/
def re_gravacao : RE :=
  cat [.grp 1 (atLeast 5 dDigit), plus dWs false,
    .grp 2 (cat [rexact 2 dUpper, .chr '-', plus (.alt dWord (.chr '-')) false]),
    plus dWs false,
    .grp 3 (alts [str "LIBERADO", str "BLOQUEADO", str "PENDENTE"]), plus dWs false,
    .grp 4 (plus dot true), plus dWs false,
    .grp 5 reSimNao, .star dWs false,
    .grp 6 (.star (.cls (fun c => c == 'X' || c.isWhitespace)) false), .eos]

/-- `re_participante_conexo` (7 groups). -/
def re_participante_conexo : RE :=
  cat [.grp 1 (atLeast 4 dDigit), plus dWs false,
    .grp 2 (plus dot true), atLeast 2 dWs,
    .grp 3 (.seq dUpper (.star clsUpperWsDot true)), plus dWs false,
    .grp 4 (.seq dUpper (opt dUpper)), plus dWs false,
    .grp 5 (.seq dUpper (opt dUpper)), plus dWs false,
    .grp 6 reAssoc, plus dWs false,
    .grp 7 (plus (clsOf "0123456789.,") false)]

/-- `^[A-Z]{2}-[\w-]+$` (a bare ISRC candidate token). -/
def reIsrcCandidate : RE :=
  cat [rexact 2 dUpper, .chr '-', plus (.alt dWord (.chr '-')) false, .eos]

/-- `(LIBERADO|BLOQUEADO|PENDENTE)\s+(.+?)(?:\s+(SIM|NÃO|NAO))?\s*([X\s]*)$`. -/
def reSituRest : RE :=
  cat [.grp 1 (alts [str "LIBERADO", str "BLOQUEADO", str "PENDENTE"]), plus dWs false,
    .grp 2 (plus dot true),
    opt (.seq (plus dWs false) (.grp 3 reSimNao)),
    .star dWs false, .grp 4 (.star (.cls (fun c => c == 'X' || c.isWhitespace)) false),
    .eos]

/-- Skip keywords of the connected-rights report loop. -/
def conexoSkipKws : List String :=
  ["RELATÓRIO ANALÍTICO", "ASSOCIAÇÃO:", "TITULAR:", "CÓD. ECAD", "CLASSIFICAÇÃO",
   "PSEUDÔNIMO", "CAT.", "SUBCAT.", "PART. (%)", "Pag ", "ECAD.Tec", "SUBCATEGORIA:",
   "ISRC/GRA", "SITUACAO", "RÓTULO"]

/-- Forward-fill state of the connected-rights extractor. -/
structure ConState where
  grav_codigo : Option Str
  grav_titulo : Option Str
  isrc : Option Str
  situacao : Option Str
  complemento : Option Str
  rows : List DRow

/-- Participant row of the connected-rights report (fallback variant,
without `arquivo_origem`). -/
def mkConRow1 (titular : Option Str) (st : ConState) (caps : Caps) : DRow :=
  [("titular", Val.ofOptStr titular),
   ("documento_origem", .str "RELATORIO_ANALITICO_CONEXO".data),
   ("obra_referencia", Val.ofOptStr st.grav_titulo),
   ("obra_codigo", Val.ofOptStr st.grav_codigo),
   ("isrc_iswc", Val.ofOptStr st.isrc),
   ("situacao", Val.ofOptStr st.situacao),
   ("complemento_titulo", Val.ofOptStr st.complemento),
   ("cod_ecad_participante", .str ((group caps 1).getD [])),
   ("nome_participante", Val.ofOptStr (clean_text (group caps 2))),
   ("pseudonimo_participante", Val.ofOptStr (clean_text (group caps 3))),
   ("categoria", .str ((group caps 4).getD [])),
   ("subcategoria", .str ((group caps 5).getD [])),
   ("associacao_participante", .str ((group caps 6).getD [])),
   ("percentual_rateio", Val.ofOptQ (clean_monetary_value ((group caps 7).getD []))),
   ("tipo_extracao", .str "RELATORIO_ANALITICO_CONEXO".data)]

/-- Participant row of the connected-rights report (main variant, with
`arquivo_origem`). -/
def mkConRow2 (titular : Option Str) (orig : Str) (st : ConState) (caps : Caps) : DRow :=
  [("titular", Val.ofOptStr titular),
   ("documento_origem", .str "RELATORIO_ANALITICO_CONEXO".data),
   ("arquivo_origem", .str orig),
   ("obra_referencia", Val.ofOptStr st.grav_titulo),
   ("obra_codigo", Val.ofOptStr st.grav_codigo),
   ("isrc_iswc", Val.ofOptStr st.isrc),
   ("situacao", Val.ofOptStr st.situacao),
   ("complemento_titulo", Val.ofOptStr st.complemento),
   ("cod_ecad_participante", .str ((group caps 1).getD [])),
   ("nome_participante", Val.ofOptStr (clean_text (group caps 2))),
   ("pseudonimo_participante", Val.ofOptStr (clean_text (group caps 3))),
   ("categoria", .str ((group caps 4).getD [])),
   ("subcategoria", .str ((group caps 5).getD [])),
   ("associacao_participante", .str ((group caps 6).getD [])),
   ("percentual_rateio", Val.ofOptQ (clean_monetary_value ((group caps 7).getD []))),
   ("tipo_extracao", .str "RELATORIO_ANALITICO_CONEXO".data)]

/-- Complementary-line / participant tail of the connected-rights loop. -/
def conTail (titular : Option Str) (orig : Str) (st : ConState) (line : Str) : ConState :=
  if !(falsy st.grav_codigo) ∧ (reMatch dDigit line).isNone ∧
      (pySplitWs line).length ≤ 5 ∧ (reMatch re_participante_conexo line).isNone then
    { st with complemento := clean_text (some line) }
  else
    match reMatch re_participante_conexo line with
    | some pm => { st with rows := st.rows ++ [mkConRow2 titular orig st pm.1] }
    | none => st

/-- One iteration of the connected-rights report's line loop. -/
def conLineStep (titular : Option Str) (orig : Str) (st : ConState) (raw : Str) :
    ConState :=
  let line := trim raw
  if line.isEmpty then st
  else if hasAnySub conexoSkipKws line then st
  else
    match reMatch re_gravacao line with
    | some m =>
      { st with
        grav_codigo := group m.1 1
        isrc := group m.1 2
        situacao := group m.1 3
        grav_titulo := clean_text (group m.1 4)
        complemento := none }
    | none =>
      if (reMatch reLongCode line).isSome then
        let parts := pySplitWs line
        if parts.length ≥ 2 then
          let code := parts.headD []
          let isrc_candidate := (parts.tail).headD []
          if (reMatch reIsrcCandidate isrc_candidate).isSome then
            let rest := joinSp (parts.drop 2)
            let st :=
              match reMatch reSituRest rest with
              | some sm =>
                { st with
                  situacao := group sm.1 1
                  grav_titulo := clean_text (group sm.1 2) }
              | none => { st with grav_titulo := clean_text (some rest) }
            { st with
              grav_codigo := some code
              isrc := some isrc_candidate
              complemento := none }
          else
            match reMatch re_participante_conexo line with
            | some pm => { st with rows := st.rows ++ [mkConRow1 titular st pm.1] }
            | none => conTail titular orig st line
        else conTail titular orig st line
      else conTail titular orig st line

/-- `_extract_relatorio_analitico_conexo`. -/
def extract_relatorio_analitico_conexo (doc : PdfDoc) (original_filename : Str) : DF :=
  let hi := extract_header_info doc.firstPageText
  let final := doc.pageLines.foldl
    (fun st lines => lines.foldl (conLineStep hi.titular original_filename) st)
    ⟨none, none, none, none, none, []⟩
  if final.rows.isEmpty then ⟨MASTER_SCHEMA_COLUMNS, []⟩
  else
    normalize_to_master_schema (dfOfRows final.rows) "RELATORIO_ANALITICO_CONEXO".data
      hi.titular none

/-! ### Dispatcher and orchestrator -/

/-- `EXTRACTOR_MAP`: layout name to extractor. -/
def EXTRACTOR_MAP : List (String × (PdfDoc → Str → DF)) :=
  [("DEMONSTRATIVO_TITULAR", extract_demonstrativo_titular),
   ("DEMONSTRATIVO_SERVICOS_DIGITAIS", extract_servicos_digitais),
   ("DEMONSTRATIVO_ANTECIPACAO_PRESCRITOS", extract_antecipacao_prescritos),
   ("DISTRIBUICAO_PRESCRITIVEIS", extract_distribuicao_prescritiveis),
   ("RELATORIO_ANALITICO_AUTORAL", extract_relatorio_analitico_autoral),
   ("RELATORIO_ANALITICO_CONEXO", extract_relatorio_analitico_conexo)]

/-- The two fatal failures of `extract_pdf`.  In the source both are
`ValueError`s with distinct messages: layout not identified
("Layout nao identificado para o arquivo ...") versus no extractor
registered for an identified layout ("Extrator nao implementado ..."). -/
inductive ExtractError where
  | layoutNotIdentified : ExtractError
  | extractorMissing (layout : String) : ExtractError
deriving DecidableEq, Repr

/-- `extract_pdf(pdf_path, original_filename)`: identify, dispatch,
extract. -/
def extract_pdf (doc : PdfDoc) (original_filename : Str) :
    Except ExtractError (String × DF) :=
  match identify_layout doc.firstPageText with
  | none => .error .layoutNotIdentified
  | some layout =>
    match EXTRACTOR_MAP.find? (fun p => p.1 == layout) with
    | none => .error (.extractorMissing layout)
    | some p => .ok (layout, p.2 doc original_filename)

end ExtService
/-! ## Definitions supporting the claim statements -/

section ClaimDefs

open PdfParser Formatters ExtService PyStr Re

/-- The monetary normalizer as the specification words it: placeholder
tokens to null; otherwise strip all characters except digits, `.`, `,`,
`-`; with both `.` and `,` drop `.` and turn `,` into `.`; with only `,`
turn it into `.`; parse; unparsable to null.  (Spec-side refinement
definition, to be compared with the source's `clean_monetary_value`.) -/
def monetary_value_spec (value : Str) : Option ℚ :=
  if value = "---".data ∨ value = "-".data ∨ value = [] ∨ value = "None".data then none
  else
    let numeric := stripNonNumeric value
    let numeric :=
      if numeric.contains ',' then
        if numeric.contains '.' then
          (numeric.filter (fun c => c != '.')).map (fun c => if c = ',' then '.' else c)
        else numeric.map (fun c => if c = ',' then '.' else c)
      else numeric
    pyFloat numeric

/-- A character of an `MM/YYYY` period token: a digit or `/`. -/
def isPeriodTokChar (c : Char) : Bool := c.isDigit || c == '/'

end ClaimDefs

/-! ## Claim verification -/

section Claims

open PdfParser Formatters ExtService PyStr Re

/-! ### C2 / C9 — the monetary value parser -/

/-- The characters kept by `stripNonNumeric` are never whitespace. -/
lemma keep_of_ws {c : Char} (h : c.isWhitespace = true) :
    (c.isDigit || c == '.' || c == ',' || c == '-') = false := by
  have h' := h
  simp only [Char.isWhitespace, Bool.or_eq_true, decide_eq_true_eq] at h'
  rcases h' with ((rfl | rfl) | rfl) | rfl <;> decide

/-- Filtering with `p` ignores a dropped prefix of characters failing `p`. -/
lemma filter_dropWhile {p q : Char → Bool} (h : ∀ c, q c = true → p c = false) :
    ∀ l : Str, (l.dropWhile q).filter p = l.filter p := by
  intro l
  induction l with
  | nil => rfl
  | cons c t ih =>
    by_cases hc : q c = true
    · simp [List.dropWhile, hc, List.filter, h c hc, ih]
    · simp [List.dropWhile, hc]

/-- Stripping non-numeric characters is insensitive to `str.strip()`. -/
lemma stripNonNumeric_trim (s : Str) : stripNonNumeric (trim s) = stripNonNumeric s := by
  have hws : ∀ c : Char, c.isWhitespace = true →
      (c.isDigit || c == '.' || c == ',' || c == '-') = false := fun c => keep_of_ws
  simp only [stripNonNumeric, trim]
  rw [List.filter_reverse, filter_dropWhile hws, List.filter_reverse,
    List.reverse_reverse, filter_dropWhile hws]

/-- C2 equivalence: the source's `clean_monetary_value` computes exactly
the specification's normalization, on every input string. -/
lemma clean_monetary_value_eq_spec (s : Str) :
    clean_monetary_value s = monetary_value_spec s := by
  by_cases hs : s = []
  · subst hs; decide
  · have hne : s.isEmpty = false := by simpa [List.isEmpty_iff] using hs
    by_cases hp : trim s = "---".data ∨ trim s = "-".data ∨ trim s = [] ∨
        trim s = "None".data
    · -- placeholder after stripping: both sides are `none`
      have hlhs : clean_monetary_value s = none := by
        simp only [clean_monetary_value, hne, Bool.false_eq_true, if_false, if_pos hp]
      rw [hlhs]
      by_cases hq : s = "---".data ∨ s = "-".data ∨ s = [] ∨ s = "None".data
      · simp only [monetary_value_spec, if_pos hq]
      · have hnum : stripNonNumeric s = stripNonNumeric (trim s) :=
          (stripNonNumeric_trim s).symm
        simp only [monetary_value_spec, if_neg hq]
        rcases hp with h | h | h | h <;>
          · rw [hnum, h]; decide
    · -- genuine numeric path: both sides strip, normalize and parse alike
      have hq : ¬(s = "---".data ∨ s = "-".data ∨ s = [] ∨ s = "None".data) := by
        rintro (rfl | rfl | rfl | rfl) <;> exact hp (by decide)
      have hnum : stripNonNumeric (trim s) = stripNonNumeric s := stripNonNumeric_trim s
      simp only [clean_monetary_value, monetary_value_spec, hne, Bool.false_eq_true,
        if_false, if_neg hp, if_neg hq, hnum]
      by_cases he : stripNonNumeric s = []
      · rw [he]; decide
      · have h2 : (stripNonNumeric s).isEmpty = false := by
          simpa [List.isEmpty_iff] using he
        simp [h2]

/-- C2: for every input, the monetary parser returns null on the literal
placeholder tokens and otherwise strips, normalizes the Brazilian format
and parses, never raising — stated as extensional equality with the
spec-side definition, plus the four quoted examples
(`1.234,56 ↦ 1234.56`, `0,00 ↦ 0`, `--- ↦ null`, `"" ↦ null`). -/
theorem C2_monetary_normalizer :
    (∀ s : Str, clean_monetary_value s = monetary_value_spec s) ∧
    clean_monetary_value "1.234,56".data = some (123456 / 100 : ℚ) ∧
    clean_monetary_value "0,00".data = some 0 ∧
    clean_monetary_value "---".data = none ∧
    clean_monetary_value "".data = none := by
  refine ⟨clean_monetary_value_eq_spec, ?_, ?_, by decide, by decide⟩
  · have e : clean_monetary_value "1.234,56".data
        = some ((digitsToNat "1234".data : ℚ) + (digitsToNat "56".data : ℚ) / 10 ^ 2) :=
      rfl
    rw [e]
    exact congrArg some (by
      norm_num [show digitsToNat "1234".data = 1234 from by decide,
        show digitsToNat "56".data = 56 from by decide])
  · have e : clean_monetary_value "0,00".data
        = some ((digitsToNat "0".data : ℚ) + (digitsToNat "00".data : ℚ) / 10 ^ 2) := rfl
    rw [e]
    exact congrArg some (by
      norm_num [show digitsToNat "0".data = 0 from by decide,
        show digitsToNat "00".data = 0 from by decide])

/-- C9: when the stripped input has no comma, the `.` is kept and parsed
as a decimal point, not as a thousands separator; in particular
`parse("1.234") = 1.234 ≠ 1234`. -/
theorem C9_dot_without_comma :
    (∀ s : Str,
      ¬(trim s = "---".data ∨ trim s = "-".data ∨ trim s = [] ∨ trim s = "None".data) →
      (stripNonNumeric (trim s)).contains ',' = false →
      clean_monetary_value s = pyFloat (stripNonNumeric (trim s))) ∧
    clean_monetary_value "1.234".data = some (1234 / 1000 : ℚ) ∧
    (1234 / 1000 : ℚ) ≠ (1234 : ℚ) := by
  refine ⟨fun s hp hc => ?_, ?_, by norm_num⟩
  · have hs : s ≠ [] := by rintro rfl; exact hp (by decide)
    have hne : s.isEmpty = false := by simpa [List.isEmpty_iff] using hs
    simp only [clean_monetary_value, hne, Bool.false_eq_true, if_false, if_neg hp, hc,
      if_false]
    by_cases he : stripNonNumeric (trim s) = []
    · rw [he]; decide
    · have h2 : (stripNonNumeric (trim s)).isEmpty = false := by
        simpa [List.isEmpty_iff] using he
      simp [h2]
  · have e : clean_monetary_value "1.234".data
        = some ((digitsToNat "1".data : ℚ) + (digitsToNat "234".data : ℚ) / 10 ^ 3) := rfl
    rw [e]
    exact congrArg some (by
      norm_num [show digitsToNat "1".data = 1 from by decide,
        show digitsToNat "234".data = 234 from by decide])

/-- C9 witness: the general statement applied at the concrete input
`"1.234"`. -/
theorem C9_dot_without_comma_witness :
    clean_monetary_value "1.234".data = pyFloat (stripNonNumeric (trim "1.234".data)) :=
  C9_dot_without_comma.1 "1.234".data (by decide) (by decide)


/-! ### C7 — period formatter / splitter round trip -/

/-- Period-token characters are not whitespace. -/
lemma periodTok_not_ws {c : Char} (h : isPeriodTokChar c = true) :
    c.isWhitespace = false := by
  rcases Bool.or_eq_true_iff.mp h with h' | h'
  · by_contra hw
    have hw' : c.isWhitespace = true := by
      cases hws : c.isWhitespace
      · exact absurd hws hw
      · rfl
    have := keep_of_ws hw'
    simp [h'] at this
  · have : c = '/' := by simpa using h'
    subst this; decide

/-- Period-token characters are not a space (used by the `" - "` split). -/
lemma periodTok_ne_space {c : Char} (h : isPeriodTokChar c = true) : c ≠ ' ' := by
  intro hc
  subst hc
  exact absurd h (by decide)

/-- `dropWhile` is the identity on a list whose members all fail `p`. -/
lemma dropWhile_of_all_false {p : Char → Bool} {l : Str}
    (h : ∀ c ∈ l, p c = false) : l.dropWhile p = l := by
  cases l with
  | nil => rfl
  | cons c t => simp [List.dropWhile, h c (by simp)]

/-- `str.strip()` is the identity on a string of period-token characters. -/
lemma trim_of_all_tok {l : Str} (h : ∀ c ∈ l, isPeriodTokChar c = true) :
    trim l = l := by
  have hws : ∀ c ∈ l, c.isWhitespace = false := fun c hc => periodTok_not_ws (h c hc)
  simp only [trim]
  rw [dropWhile_of_all_false hws,
    dropWhile_of_all_false (fun c hc => hws c (List.mem_reverse.mp hc)),
    List.reverse_reverse]

/-- No `\s+A\s+` match starts at a non-whitespace character. -/
lemma matchWsAWs_none_of_head {c : Char} (hc : c.isWhitespace = false) (t : Str) :
    matchWsAWs (c :: t) = none := by
  simp [matchWsAWs, List.takeWhile, hc]

/-- `subWsAWsAux` is the identity on whitespace-free strings (any fuel). -/
lemma subWsAWsAux_of_no_ws {l : Str} (h : ∀ c ∈ l, c.isWhitespace = false) :
    ∀ n, subWsAWsAux n l = l := by
  induction l with
  | nil => intro n; cases n <;> rfl
  | cons c t ih =>
    intro n
    cases n with
    | zero => rfl
    | succ m =>
      simp only [subWsAWsAux, matchWsAWs_none_of_head (h c (by simp)) t]
      rw [ih (fun d hd => h d (by simp [hd])) m]

/-- The `\s+A\s+` match at the junction `" A "` consumes exactly it when
what follows starts with a non-whitespace character (or is empty). -/
lemma matchWsAWs_junction {b : Str} (hb : ∀ c ∈ b, c.isWhitespace = false) :
    matchWsAWs (' ' :: 'A' :: ' ' :: b) = some b := by
  have hA : ('A' : Char).isWhitespace = false := by decide
  have hdrop : b.dropWhile Char.isWhitespace = b := dropWhile_of_all_false hb
  cases b with
  | nil => simp [matchWsAWs, List.takeWhile, List.dropWhile]
  | cons d t =>
    have hd : d.isWhitespace = false := hb d (by simp)
    simp [matchWsAWs, List.takeWhile, List.dropWhile, hA, hd]

/-- `re.sub(r"\s+A\s+", " - ", ...)` on `a ++ " A " ++ b` for whitespace-free
`a`, `b` rewrites exactly the junction. -/
lemma subWsAWsAux_junction {b : Str} (hb : ∀ c ∈ b, c.isWhitespace = false) :
    ∀ (a : Str) (n : Nat), (∀ c ∈ a, c.isWhitespace = false) → a.length + 1 ≤ n →
    subWsAWsAux n (a ++ ' ' :: 'A' :: ' ' :: b) = a ++ ' ' :: '-' :: ' ' :: b := by
  intro a
  induction a with
  | nil =>
    intro n _ hn
    obtain ⟨m, rfl⟩ : ∃ m, n = m + 1 := ⟨n - 1, by omega⟩
    simp only [List.nil_append, subWsAWsAux, matchWsAWs_junction hb]
    rw [subWsAWsAux_of_no_ws hb m]
  | cons c a' ih =>
    intro n hc hn
    obtain ⟨m, rfl⟩ : ∃ m, n = m + 1 := ⟨n - 1, by omega⟩
    have hc0 : c.isWhitespace = false := hc c (by simp)
    simp only [List.cons_append, subWsAWsAux, matchWsAWs_none_of_head hc0, List.append_eq]
    rw [ih m (fun d hd => hc d (by simp [hd])) (by simpa using Nat.succ_le_succ_iff.mp hn)]

/-- No `" - "` occurrence inside a space-free string. -/
lemma splitFirst_none_of_no_space {l : Str} (h : ∀ c ∈ l, c ≠ ' ') :
    splitFirst " - ".data l = none := by
  induction l with
  | nil => rfl
  | cons c t ih =>
    have hc : c ≠ ' ' := h c (by simp)
    have hpre : (" - ".data).isPrefixOf (c :: t) = false := by
      show ([' ', '-', ' '] : Str).isPrefixOf (c :: t) = false
      simp [List.isPrefixOf, hc, Ne.symm hc]
    simp only [splitFirst, hpre, Bool.false_eq_true, if_false]
    rw [ih (fun d hd => h d (by simp [hd]))]
    rfl

/-- The first `" - "` occurrence in `a ++ " - " ++ b` for space-free `a`
is the junction. -/
lemma splitFirst_junction {b : Str} (a : Str) (ha : ∀ c ∈ a, c ≠ ' ') :
    splitFirst " - ".data (a ++ ' ' :: '-' :: ' ' :: b) = some (a, b) := by
  induction a with
  | nil =>
    show splitFirst [' ', '-', ' '] (' ' :: '-' :: ' ' :: b) = some ([], b)
    simp [splitFirst, List.isPrefixOf]
  | cons c a' ih =>
    have hc : c ≠ ' ' := ha c (by simp)
    have hpre : ([' ', '-', ' '] : Str).isPrefixOf (c :: (a' ++ ' ' :: '-' :: ' ' :: b))
        = false := by
      simp [List.isPrefixOf, hc, Ne.symm hc]
    show splitFirst [' ', '-', ' '] (c :: (a' ++ ' ' :: '-' :: ' ' :: b)) = _
    simp only [splitFirst, hpre, Bool.false_eq_true, if_false,
      ih (fun d hd => ha d (by simp [hd]))]
    rfl

/-- `"a - b".split(" - ") = [a, b]` for space-free `a`, `b`. -/
lemma splitOnSep_junction {a b : Str} (ha : ∀ c ∈ a, c ≠ ' ') (hb : ∀ c ∈ b, c ≠ ' ') :
    splitOnSep " - ".data (a ++ ' ' :: '-' :: ' ' :: b) = [a, b] := by
  have hlen : (a ++ ' ' :: '-' :: ' ' :: b).length = (a.length + b.length + 2) + 1 := by
    simp [List.length_append]; omega
  simp only [splitOnSep, hlen, subWsAWsAux]
  show splitOnSepAux " - ".data ((a.length + b.length + 2) + 1 + 1) _ = _
  obtain ⟨m, hm⟩ : ∃ m, (a.length + b.length + 2) + 1 + 1 = m + 1 :=
    ⟨a.length + b.length + 3, by omega⟩
  rw [hm]
  simp only [splitOnSepAux, splitFirst_junction a ha]
  obtain ⟨k, hk⟩ : ∃ k, m = k + 1 := ⟨m - 1, by omega⟩
  rw [hk]
  simp only [splitOnSepAux, splitFirst_none_of_no_space hb]

/-- A space-free string splits on `" - "` into itself alone. -/
lemma splitOnSep_single {a : Str} (ha : ∀ c ∈ a, c ≠ ' ') :
    splitOnSep " - ".data a = [a] := by
  obtain ⟨m, hm⟩ : ∃ m, a.length + 1 = m + 1 := ⟨a.length, rfl⟩
  simp only [splitOnSep, hm, splitOnSepAux, splitFirst_none_of_no_space ha]

/-- `str.strip()` of `a ++ m ++ b` is itself when `a` starts and `b` ends
with period-token characters. -/
lemma trim_sandwich {a b : Str} (m : Str) (ha : ∀ c ∈ a, isPeriodTokChar c = true)
    (hb : ∀ c ∈ b, isPeriodTokChar c = true) (hane : a ≠ []) (hbne : b ≠ []) :
    trim (a ++ m ++ b) = a ++ m ++ b := by
  simp only [trim]
  have h1 : (a ++ m ++ b).dropWhile Char.isWhitespace = a ++ m ++ b := by
    cases a with
    | nil => exact absurd rfl hane
    | cons c t =>
      have : c.isWhitespace = false := periodTok_not_ws (ha c (by simp))
      simp [List.dropWhile, this]
  rw [h1]
  have h2 : (a ++ m ++ b).reverse.dropWhile Char.isWhitespace = (a ++ m ++ b).reverse := by
    have hrev : (a ++ m ++ b).reverse = b.reverse ++ (m.reverse ++ a.reverse) := by
      simp [List.reverse_append]
    rw [hrev]
    cases hb' : b.reverse with
    | nil => exact absurd (by simpa using hb') hbne
    | cons d t =>
      have hd : d ∈ b := by
        have : d ∈ b.reverse := by simp [hb']
        simpa using this
      have : d.isWhitespace = false := periodTok_not_ws (hb d hd)
      simp [List.dropWhile, this]
    
  rw [h2, List.reverse_reverse]

/-- C7: period formatter / splitter round trip.  For any two period tokens
`a`, `b` (digit/slash strings), `format` turns `"a A b"` into `"a - b"`
and `split` recovers `(a, b)`; a single token passes through `format` and
splits into `(a, a)`; in particular the two quoted examples hold. -/
theorem C7_period_round_trip :
    (∀ a b : Str, (∀ c ∈ a, isPeriodTokChar c = true) → (∀ c ∈ b, isPeriodTokChar c = true) →
      a ≠ [] → b ≠ [] →
      format_period (some (a ++ " A ".data ++ b)) = some (a ++ " - ".data ++ b) ∧
      split_period_range (format_period (some (a ++ " A ".data ++ b))) = (some a, some b)) ∧
    (∀ a : Str, (∀ c ∈ a, isPeriodTokChar c = true) → a ≠ [] →
      format_period (some a) = some a ∧
      split_period_range (format_period (some a)) = (some a, some a)) ∧
    split_period_range (format_period (some "06/2024 A 08/2024".data)) =
      (some "06/2024".data, some "08/2024".data) ∧
    split_period_range (format_period (some "01/2024".data)) =
      (some "01/2024".data, some "01/2024".data) := by
  have single : ∀ a : Str, (∀ c ∈ a, isPeriodTokChar c = true) → a ≠ [] →
      format_period (some a) = some a ∧
      split_period_range (format_period (some a)) = (some a, some a) := by
    intro a ha hane
    have hne : a.isEmpty = false := by simpa [List.isEmpty_iff] using hane
    have hfmt : format_period (some a) = some a := by
      simp only [format_period, hne, Bool.false_eq_true, if_false,
        trim_of_all_tok ha, subWsAWs]
      rw [subWsAWsAux_of_no_ws (fun c hc => periodTok_not_ws (ha c hc))]
    refine ⟨hfmt, ?_⟩
    rw [hfmt]
    simp only [split_period_range, hne, Bool.false_eq_true, if_false,
      splitOnSep_single (fun c hc => periodTok_ne_space (ha c hc)), trim_of_all_tok ha]
  have dual : ∀ a b : Str, (∀ c ∈ a, isPeriodTokChar c = true) →
      (∀ c ∈ b, isPeriodTokChar c = true) → a ≠ [] → b ≠ [] →
      format_period (some (a ++ " A ".data ++ b)) = some (a ++ " - ".data ++ b) ∧
      split_period_range (format_period (some (a ++ " A ".data ++ b)))
        = (some a, some b) := by
    intro a b ha hb hane hbne
    have hAeq : (" A ".data : Str) = [' ', 'A', ' '] := rfl
    have hDeq : (" - ".data : Str) = [' ', '-', ' '] := rfl
    have hcons : a ++ " A ".data ++ b = a ++ ' ' :: 'A' :: ' ' :: b := by
      rw [hAeq]; simp
    have hconsD : a ++ " - ".data ++ b = a ++ ' ' :: '-' :: ' ' :: b := by
      rw [hDeq]; simp
    have hne : (a ++ " A ".data ++ b).isEmpty = false := by
      cases a with
      | nil => exact absurd rfl hane
      | cons c t => simp [List.isEmpty]
    have hfmt : format_period (some (a ++ " A ".data ++ b))
        = some (a ++ " - ".data ++ b) := by
      simp only [format_period, hne, Bool.false_eq_true, if_false]
      rw [trim_sandwich " A ".data ha hb hane hbne, hcons, hconsD, subWsAWs]
      exact congrArg some (subWsAWsAux_junction (fun c hc => periodTok_not_ws (hb c hc)) a
        ((a ++ ' ' :: 'A' :: ' ' :: b).length + 1)
        (fun c hc => periodTok_not_ws (ha c hc))
        (by simp [List.length_append]))
    refine ⟨hfmt, ?_⟩
    rw [hfmt]
    have hneD : (a ++ " - ".data ++ b).isEmpty = false := by
      cases a with
      | nil => exact absurd rfl hane
      | cons c t => simp [List.isEmpty]
    have hneC : (a ++ ' ' :: '-' :: ' ' :: b).isEmpty = false := by
      cases a <;> simp [List.isEmpty]
    simp only [split_period_range, hneD, Bool.false_eq_true, if_false, hconsD, hneC,
      splitOnSep_junction (fun c hc => periodTok_ne_space (ha c hc))
        (fun c hc => periodTok_ne_space (hb c hc)),
      trim_of_all_tok ha, trim_of_all_tok hb]
  refine ⟨dual, single, ?_, ?_⟩
  · have h := (dual "06/2024".data "08/2024".data (by decide) (by decide)
      (by decide) (by decide)).2
    simpa using h
  · have h := (single "01/2024".data (by decide) (by decide)).2
    simpa using h

/-- C7 witness: the general round trip applied at the quoted inputs. -/
theorem C7_period_round_trip_witness :
    format_period (some ("06/2024".data ++ " A ".data ++ "08/2024".data)) =
      some ("06/2024".data ++ " - ".data ++ "08/2024".data) ∧
    split_period_range (format_period (some "01/2024".data)) =
      (some "01/2024".data, some "01/2024".data) :=
  ⟨(C7_period_round_trip.1 "06/2024".data "08/2024".data (by decide) (by decide)
      (by decide) (by decide)).1,
   (C7_period_round_trip.2.1 "01/2024".data (by decide) (by decide)).2⟩

/-! ### C3 — layout identification -/

/-- Python's stable descending sort leaves the already-descending
signature list unchanged. -/
lemma sortedSignatures_eq : sortedSignatures = LAYOUT_SIGNATURES := by decide

/-- The signature list is (weakly) descending in priority. -/
lemma layout_signatures_sorted :
    LAYOUT_SIGNATURES.Pairwise (fun x y => y.priority ≤ x.priority) := by
  simp [LAYOUT_SIGNATURES, List.pairwise_cons]

/-- `find?` on a descending list returns a first match whose priority
dominates any other match's. -/
lemma find_first_match {l : List LayoutSignature} {p : LayoutSignature → Bool}
    {a : LayoutSignature} (hsort : l.Pairwise (fun x y => y.priority ≤ x.priority))
    (ha : a ∈ l) (hpa : p a = true) :
    ∃ b, l.find? p = some b ∧ b ∈ l ∧ p b = true ∧ a.priority ≤ b.priority := by
  induction l with
  | nil => cases ha
  | cons x t ih =>
    by_cases hx : p x = true
    · refine ⟨x, by simp [List.find?, hx], by simp, hx, ?_⟩
      rcases List.mem_cons.mp ha with rfl | hat
      · exact le_refl _
      · exact (List.pairwise_cons.mp hsort).1 a hat
    · have hx' : p x = false := by simpa using hx
      have hat : a ∈ t := by
        rcases List.mem_cons.mp ha with rfl | h
        · exact absurd hpa hx
        · exact h
      obtain ⟨b, hf, hbmem, hpb, hle⟩ := ih (List.pairwise_cons.mp hsort).2 hat
      exact ⟨b, by simp [List.find?, hx', hf], by simp [hbmem], hpb, hle⟩

/-- C3: layout identification — a text matching no signature yields
`none` (Unidentified); a text matching any signature yields the name of a
matching signature of maximal priority reachable first; and on a text
holding both the priority-80 keywords and the priority-10 keywords the
priority-80 layout wins. -/
theorem C3_layout_identification :
    (∀ text : Str, (∀ sig ∈ LAYOUT_SIGNATURES, sigMatches sig (upper text) = false) →
      identify_layout text = none) ∧
    (∀ text : Str, ∀ sig ∈ LAYOUT_SIGNATURES, sigMatches sig (upper text) = true →
      ∃ sig2, sig2 ∈ LAYOUT_SIGNATURES ∧ identify_layout text = some sig2.name ∧
        sigMatches sig2 (upper text) = true ∧ sig.priority ≤ sig2.priority) ∧
    identify_layout
        "DEMONSTRATIVO DO TITULAR EXECUÇÃO PÚBLICA ANTECIPAÇÃO DE PRESCRITOS".data
      = some "DEMONSTRATIVO_ANTECIPACAO_PRESCRITOS" ∧
    identify_layout [] = none := by
  refine ⟨?_, ?_, by decide, rfl⟩
  · intro text h
    by_cases ht : text = []
    · subst ht; rfl
    · have hne : text.isEmpty = false := by simpa [List.isEmpty_iff] using ht
      simp only [identify_layout, hne, Bool.false_eq_true, if_false, sortedSignatures_eq]
      rw [List.find?_eq_none.mpr (fun x hx => by simp [h x hx])]
      rfl
  · intro text sig hmem hmatch
    by_cases ht : text = []
    · exfalso
      have : sigMatches sig (upper []) = false := by
        fin_cases hmem <;> decide
      rw [ht] at hmatch
      rw [this] at hmatch
      exact Bool.false_ne_true hmatch
    · have hne : text.isEmpty = false := by simpa [List.isEmpty_iff] using ht
      obtain ⟨b, hf, hbmem, hpb, hle⟩ :=
        find_first_match (p := fun s => sigMatches s (upper text))
          layout_signatures_sorted hmem hmatch
      refine ⟨b, hbmem, ?_, hpb, hle⟩
      simp only [identify_layout, hne, Bool.false_eq_true, if_false, sortedSignatures_eq,
        hf]
      rfl

/-- C3 witness: the no-match side applied at a concrete unmatched text. -/
theorem C3_layout_identification_witness :
    identify_layout "HELLO WORLD".data = none :=
  C3_layout_identification.1 "HELLO WORLD".data (by decide)

/-! ### C6 — typed failure distinction of the orchestrator -/

/-- Dispatch trichotomy of `extract_pdf`: either no layout was identified
and the `LayoutNotIdentified` error is raised, or a layout was identified,
its extractor is registered, and extraction succeeds.  (The
`ExtractorMissing` branch exists in the code but no identifiable layout
name lacks a registered extractor.) -/
lemma extract_pdf_cases (doc : PdfDoc) (orig : Str) :
    (identify_layout doc.firstPageText = none ∧
      extract_pdf doc orig = .error .layoutNotIdentified) ∨
    (∃ name f, identify_layout doc.firstPageText = some name ∧
      EXTRACTOR_MAP.find? (fun p => p.1 == name) = some f ∧
      extract_pdf doc orig = .ok (name, f.2 doc orig)) := by
  cases hid : identify_layout doc.firstPageText with
  | none => exact Or.inl ⟨rfl, by simp [extract_pdf, hid]⟩
  | some name =>
    -- the identified name is the name of one of the six signatures
    have hsig : ∃ sig, sig ∈ LAYOUT_SIGNATURES ∧ sig.name = name := by
      by_cases ht : doc.firstPageText.isEmpty = true
      · simp [identify_layout, ht] at hid
      · simp only [identify_layout, ht, Bool.false_eq_true, if_false,
          sortedSignatures_eq, Option.map_eq_some'] at hid
        obtain ⟨sig, hfind, hname⟩ := hid
        exact ⟨sig, List.mem_of_find?_eq_some hfind, hname⟩
    obtain ⟨sig, hmem, hname⟩ := hsig
    have hfound : ∃ f, EXTRACTOR_MAP.find? (fun p => p.1 == name) = some f := by
      subst hname
      fin_cases hmem
      · exact ⟨("RELATORIO_ANALITICO_AUTORAL", extract_relatorio_analitico_autoral), rfl⟩
      · exact ⟨("RELATORIO_ANALITICO_CONEXO", extract_relatorio_analitico_conexo), rfl⟩
      · exact ⟨("DEMONSTRATIVO_SERVICOS_DIGITAIS", extract_servicos_digitais), rfl⟩
      · exact ⟨("DEMONSTRATIVO_ANTECIPACAO_PRESCRITOS", extract_antecipacao_prescritos),
          rfl⟩
      · exact ⟨("DISTRIBUICAO_PRESCRITIVEIS", extract_distribuicao_prescritiveis), rfl⟩
      · exact ⟨("DEMONSTRATIVO_TITULAR", extract_demonstrativo_titular), rfl⟩
    obtain ⟨f, hf⟩ := hfound
    exact Or.inr ⟨name, f, rfl, hf, by simp [extract_pdf, hid, hf]⟩

/-- C6: the orchestrator fails with `LayoutNotIdentified` exactly when no
signature matched the first page; it fails with the distinct
`ExtractorMissing` error exactly when an identified layout has no
registered extractor (which never happens for the shipped signature set,
so that error is unreachable); in every other case it returns the layout
name with the extracted, projected rows. -/
theorem C6_typed_failure_distinction :
    (∀ (doc : PdfDoc) (orig : Str),
      extract_pdf doc orig = .error .layoutNotIdentified ↔
        identify_layout doc.firstPageText = none) ∧
    (∀ (doc : PdfDoc) (orig : Str) (l : String),
      extract_pdf doc orig = .error (.extractorMissing l) ↔
        (identify_layout doc.firstPageText = some l ∧
          EXTRACTOR_MAP.find? (fun p => p.1 == l) = none)) ∧
    (∀ (doc : PdfDoc) (orig : Str) (name : String),
      identify_layout doc.firstPageText = some name →
      ∃ f, EXTRACTOR_MAP.find? (fun p => p.1 == name) = some f ∧
        extract_pdf doc orig = .ok (name, f.2 doc orig)) ∧
    (∀ (doc : PdfDoc) (orig : Str) (l : String),
      extract_pdf doc orig ≠ .error (.extractorMissing l)) := by
  have h4 : ∀ (doc : PdfDoc) (orig : Str) (l : String),
      extract_pdf doc orig ≠ .error (.extractorMissing l) := by
    intro doc orig l h
    rcases extract_pdf_cases doc orig with ⟨_, he⟩ | ⟨name, f, _, _, he⟩ <;>
      rw [he] at h <;> simp at h
  refine ⟨?_, ?_, ?_, h4⟩
  · intro doc orig
    constructor
    · intro h
      rcases extract_pdf_cases doc orig with ⟨hid, _⟩ | ⟨name, f, hid, hf, he⟩
      · exact hid
      · rw [he] at h; simp at h
    · intro hid
      rcases extract_pdf_cases doc orig with ⟨_, he⟩ | ⟨name, f, hid2, _, _⟩
      · exact he
      · rw [hid] at hid2; simp at hid2
  · intro doc orig l
    constructor
    · intro h
      exact absurd h (h4 doc orig l)
    · rintro ⟨hid, hnone⟩
      rcases extract_pdf_cases doc orig with ⟨hid2, _⟩ | ⟨name, f, hid2, hf, _⟩
      · rw [hid] at hid2; simp at hid2
      · rw [hid] at hid2
        injection hid2 with hn
        rw [← hn] at hf
        rw [hf] at hnone
        simp at hnone
  · intro doc orig name hid
    rcases extract_pdf_cases doc orig with ⟨hid2, _⟩ | ⟨name2, f, hid2, hf, he⟩
    · rw [hid] at hid2; simp at hid2
    · rw [hid] at hid2
      injection hid2 with hn
      subst hn
      exact ⟨f, hf, he⟩

/-- C6 witness: on a document whose first page identifies none of the
signatures, the orchestrator raises exactly the layout error. -/
theorem C6_typed_failure_distinction_witness :
    extract_pdf ⟨"UNRELATED TEXT".data, []⟩ "f.pdf".data
      = .error .layoutNotIdentified :=
  (C6_typed_failure_distinction.1 ⟨"UNRELATED TEXT".data, []⟩ "f.pdf".data).mpr (by decide)

/-! ### C4 / C5 — master schema projection -/

/-- Setting a present column and reading it back. -/
lemma lookup_map_set_self {c : String} {v : Val} :
    ∀ t : DRow, t.any (fun p => p.1 == c) = true →
    lookupRow (t.map (fun p => if p.1 == c then (c, v) else p)) c = v := by
  intro t ht
  induction t with
  | nil => simp at ht
  | cons a t ih =>
    by_cases ha : (a.1 == c) = true
    · simp only [List.map_cons, ha, if_true, lookupRow]
      rw [List.find?_cons_of_pos _ (by simp)]
    · have ha' : (a.1 == c) = false := by simpa using ha
      have ht' : t.any (fun p => p.1 == c) = true := by
        simpa [List.any_cons, ha'] using ht
      simp only [List.map_cons, ha', Bool.false_eq_true, if_false, lookupRow]
      rw [List.find?_cons_of_neg _ (by simp [ha'])]
      simpa only [lookupRow] using ih ht'

/-- Appending a missing column and reading it back. -/
lemma lookup_append_self {c : String} {v : Val} :
    ∀ t : DRow, t.any (fun p => p.1 == c) = false →
    lookupRow (t ++ [(c, v)]) c = v := by
  intro t ht
  induction t with
  | nil =>
    simp only [List.nil_append, lookupRow]
    rw [List.find?_cons_of_pos _ (by simp)]
  | cons a t ih =>
    have ha : (a.1 == c) = false := by
      by_contra hcon
      simp only [List.any_cons, Bool.or_eq_false_iff] at ht
      exact hcon (by simp [ht.1])
    have ht' : t.any (fun p => p.1 == c) = false := by
      simpa [List.any_cons, ha] using ht
    simp only [List.cons_append, lookupRow]
    rw [List.find?_cons_of_neg _ (by simp [ha])]
    simpa only [lookupRow] using ih ht'

/-- `rowSet` then reading the set column gives the written value. -/
lemma lookupRow_rowSet_self (r : DRow) (c : String) (v : Val) :
    lookupRow (rowSet r c v) c = v := by
  unfold rowSet
  by_cases h : r.any (fun p => p.1 == c) = true
  · rw [if_pos h]; exact lookup_map_set_self r h
  · have h' : r.any (fun p => p.1 == c) = false := Bool.eq_false_iff.mpr h
    rw [if_neg h]; exact lookup_append_self r h'

/-- `rowSet` leaves every other column's value unchanged. -/
lemma lookupRow_rowSet_other {c c' : String} (h : c' ≠ c) (r : DRow) (v : Val) :
    lookupRow (rowSet r c v) c' = lookupRow r c' := by
  have hcc : ((c, v).1 == c') = false := by simpa using (Ne.symm h)
  unfold rowSet
  by_cases hany : r.any (fun p => p.1 == c) = true
  · rw [if_pos hany]
    clear hany
    induction r with
    | nil => rfl
    | cons a t ih =>
      by_cases ha : (a.1 == c) = true
      · have ha1 : a.1 = c := by simpa using ha
        have ha'' : (a.1 == c') = false := by
          rw [ha1]; exact beq_eq_false_iff_ne.mpr (Ne.symm h)
        simp only [List.map_cons, ha, if_true, lookupRow]
        rw [List.find?_cons_of_neg _ (by simp [hcc]),
          List.find?_cons_of_neg _ (by simp [ha''])]
        simpa only [lookupRow] using ih
      · have ha0 : (a.1 == c) = false := by simpa using ha
        by_cases ha' : (a.1 == c') = true
        · simp only [List.map_cons, ha0, Bool.false_eq_true, if_false, lookupRow]
          rw [List.find?_cons_of_pos _ (by simp [ha']),
            List.find?_cons_of_pos _ (by simp [ha'])]
        · have ha'' : (a.1 == c') = false := by simpa using ha'
          simp only [List.map_cons, ha0, Bool.false_eq_true, if_false, lookupRow]
          rw [List.find?_cons_of_neg _ (by simp [ha'']),
            List.find?_cons_of_neg _ (by simp [ha''])]
          simpa only [lookupRow] using ih
  · rw [if_neg hany]
    clear hany
    induction r with
    | nil =>
      simp only [List.nil_append, lookupRow]
      rw [List.find?_cons_of_neg _ (by simp [hcc])]
    | cons a t ih =>
      by_cases ha' : (a.1 == c') = true
      · simp only [List.cons_append, lookupRow]
        rw [List.find?_cons_of_pos _ (by simp [ha']),
          List.find?_cons_of_pos _ (by simp [ha'])]
      · have ha'' : (a.1 == c') = false := by simpa using ha'
        simp only [List.cons_append, lookupRow]
        rw [List.find?_cons_of_neg _ (by simp [ha'']),
          List.find?_cons_of_neg _ (by simp [ha''])]
        simpa only [lookupRow] using ih

/-- Columns after a column assignment. -/
lemma cols_setCol (df : DF) (c : String) (f : DRow → Val) :
    (df.setCol c f).cols = if df.cols.contains c then df.cols else df.cols ++ [c] := rfl

/-- Rows after a column assignment. -/
lemma rows_setCol (df : DF) (c : String) (f : DRow → Val) :
    (df.setCol c f).rows = df.rows.map (fun r => rowSet r c (f r)) := rfl

/-- Column membership survives any column assignment. -/
lemma mem_cols_setCol_of_mem {df : DF} {c' : String} (c : String) (f : DRow → Val)
    (h : c' ∈ df.cols) : c' ∈ (df.setCol c f).cols := by
  rw [cols_setCol]
  split
  · exact h
  · exact List.mem_append_left _ h

/-- The assigned column is a member afterwards. -/
lemma mem_cols_setCol_self (df : DF) (c : String) (f : DRow → Val) :
    c ∈ (df.setCol c f).cols := by
  rw [cols_setCol]
  split
  · next h => exact List.elem_iff.mp h
  · exact List.mem_append_right _ (by simp)

/-- A column distinct from the assigned one stays absent. -/
lemma not_mem_cols_setCol {df : DF} {c c' : String} (f : DRow → Val)
    (h1 : c' ∉ df.cols) (h2 : c' ≠ c) : c' ∉ (df.setCol c f).cols := by
  rw [cols_setCol]
  split
  · exact h1
  · intro hmem
    rcases List.mem_append.mp hmem with h | h
    · exact h1 h
    · simp at h; exact h2 h

/-- Assigning a schema column does not change the extra-column list. -/
lemma filter_cols_setCol {df : DF} {c : String} (f : DRow → Val)
    (hc : MASTER_SCHEMA_COLUMNS.contains c = true) :
    ((df.setCol c f).cols).filter (fun x => !MASTER_SCHEMA_COLUMNS.contains x)
      = df.cols.filter (fun x => !MASTER_SCHEMA_COLUMNS.contains x) := by
  rw [cols_setCol]
  split
  · rfl
  · rw [List.filter_append]
    simp only [List.filter_cons, List.filter_nil, hc, Bool.not_true, Bool.false_eq_true,
      if_false, List.append_nil]

/-- All rows of a data frame satisfy a property. -/
def AllRows (df : DF) (Φ : DRow → Prop) : Prop := ∀ r ∈ df.rows, Φ r

/-- A column assignment preserves any row property stable under
`rowSet` at that column. -/
lemma allRows_setCol_pres {df : DF} {c : String} {f : DRow → Val} {Φ : DRow → Prop}
    (hpres : ∀ r v, Φ r → Φ (rowSet r c v)) (h : AllRows df Φ) :
    AllRows (df.setCol c f) Φ := by
  intro r hr
  rw [rows_setCol] at hr
  obtain ⟨r0, hr0, rfl⟩ := List.mem_map.mp hr
  exact hpres r0 _ (h r0 hr0)

/-- A constant column assignment establishes the constant-column fact. -/
lemma allRows_setCol_const (df : DF) (c : String) (v : Val) :
    AllRows (df.setCol c (fun _ => v)) (fun r => lookupRow r c = v) := by
  intro r hr
  rw [rows_setCol] at hr
  obtain ⟨r0, _, rfl⟩ := List.mem_map.mp hr
  exact lookupRow_rowSet_self r0 c v

/-- Column membership survives the null-fill fold. -/
lemma foldl_nullFill_mono {c' : String} :
    ∀ (l : List String) (df : DF), c' ∈ df.cols → c' ∈ (l.foldl nullFillStep df).cols := by
  intro l
  induction l with
  | nil => exact fun df h => h
  | cons c t ih =>
    intro df h
    refine ih _ ?_
    unfold nullFillStep
    split
    · exact h
    · exact mem_cols_setCol_of_mem c _ h

/-- Every folded-over column is a member afterwards. -/
lemma foldl_nullFill_mem :
    ∀ (l : List String) (df : DF) (c : String), c ∈ l → c ∈ (l.foldl nullFillStep df).cols := by
  intro l
  induction l with
  | nil => intro df c h; cases h
  | cons x t ih =>
    intro df c h
    rcases List.mem_cons.mp h with rfl | h
    · refine foldl_nullFill_mono t _ ?_
      unfold nullFillStep
      split
      · next hc => exact List.elem_iff.mp hc
      · exact mem_cols_setCol_self _ _ _
    · exact ih _ c h

/-- The null-fill fold over schema columns does not change the
extra-column list. -/
lemma foldl_nullFill_filter :
    ∀ (l : List String), (∀ c ∈ l, MASTER_SCHEMA_COLUMNS.contains c = true) →
    ∀ df : DF, ((l.foldl nullFillStep df).cols).filter
        (fun x => !MASTER_SCHEMA_COLUMNS.contains x)
      = df.cols.filter (fun x => !MASTER_SCHEMA_COLUMNS.contains x) := by
  intro l
  induction l with
  | nil => exact fun _ df => rfl
  | cons c t ih =>
    intro h df
    rw [List.foldl_cons, ih (fun x hx => h x (by simp [hx]))]
    unfold nullFillStep
    split
    · rfl
    · exact filter_cols_setCol _ (h c (by simp))

/-- The null-fill fold preserves a row property stable under `rowSet`
outside a protected column set `S`, provided the folded-over columns in
`S` are already present. -/
lemma foldl_nullFill_pres (S : List String) (Φ : DRow → Prop)
    (hpres : ∀ (r : DRow) (c : String) (v : Val), c ∉ S → Φ r → Φ (rowSet r c v)) :
    ∀ (l : List String) (df : DF), (∀ c ∈ l, c ∈ S → c ∈ df.cols) →
    AllRows df Φ → AllRows (l.foldl nullFillStep df) Φ := by
  intro l
  induction l with
  | nil => exact fun df _ h => h
  | cons c t ih =>
    intro df hS h
    rw [List.foldl_cons]
    by_cases hc : df.cols.contains c = true
    · have : nullFillStep df c = df := by unfold nullFillStep; rw [if_pos hc]
      rw [this]
      exact ih df (fun x hx hxS => hS x (by simp [hx]) hxS) h
    · have hstep : nullFillStep df c = df.setCol c (fun _ => .null) := by
        unfold nullFillStep; rw [if_neg hc]
      have hcS : c ∉ S := by
        intro hcs
        exact hc (List.elem_iff.mpr (hS c (by simp) hcs))
      rw [hstep]
      refine ih _ (fun x hx hxS => mem_cols_setCol_of_mem _ _ (hS x (by simp [hx]) hxS)) ?_
      exact allRows_setCol_pres (fun r v hr => hpres r c v hcS hr) h

/-- Folding the null fill over a duplicate-free column list establishes a
null column at every folded-over column that was absent. -/
lemma foldl_nullFill_null {c' : String} :
    ∀ (l : List String) (df : DF), l.Nodup → c' ∈ l → c' ∉ df.cols →
    AllRows (l.foldl nullFillStep df) (fun r => lookupRow r c' = .null) := by
  intro l
  induction l with
  | nil => intro df _ h; cases h
  | cons c t ih =>
    intro df hnd hmem habs
    rw [List.foldl_cons]
    rcases List.mem_cons.mp hmem with rfl | hmt
    · have hc : ¬ df.cols.contains c' = true := fun h => habs (List.elem_iff.mp h)
      have hstep : nullFillStep df c' = df.setCol c' (fun _ => .null) := by
        unfold nullFillStep; rw [if_neg hc]
      rw [hstep]
      have hnotin : c' ∉ t := (List.nodup_cons.mp hnd).1
      refine foldl_nullFill_pres [c'] _ ?_ t _ ?_ ?_
      · intro r c v hcS hr
        have hne : c' ≠ c := fun h => hcS (by simp [h])
        rw [lookupRow_rowSet_other hne]
        exact hr
      · intro x hx hxS
        simp at hxS
        exact absurd (hxS ▸ hx) hnotin
      · exact allRows_setCol_const df c' .null
    · by_cases hcc : c' = c
      · exact absurd (hcc ▸ hmt) (List.nodup_cons.mp hnd).1
      · have habs2 : c' ∉ (nullFillStep df c).cols := by
          unfold nullFillStep
          split
          · exact habs
          · exact not_mem_cols_setCol _ habs hcc
        exact ih _ (List.nodup_cons.mp hnd).2 hmt habs2

/-- Each context-column step either leaves the frame alone or assigns its
one fixed column. -/
lemma addTipoExtracao_shape (df : DF) (tipo : Str) :
    addTipoExtracao df tipo = df ∨
      addTipoExtracao df tipo = df.setCol "tipo_extracao" (fun _ => .str tipo) := by
  unfold addTipoExtracao
  split
  · exact Or.inl rfl
  · exact Or.inr rfl

/-- `addTitular` shape. -/
lemma addTitular_shape (df : DF) (t? : Option Str) :
    addTitular df t? = df ∨
      ∃ f : DRow → Val, addTitular df t? = df.setCol "titular" f := by
  cases t? with
  | none => exact Or.inl rfl
  | some t =>
    by_cases h : (!df.cols.contains "titular") = true ∧ (!t.isEmpty) = true
    · exact Or.inr ⟨fun _ => .str t, by simp only [addTitular, if_pos h]⟩
    · exact Or.inl (by simp only [addTitular, if_neg h])

/-- `addDocumentoOrigem` shape. -/
lemma addDocumentoOrigem_shape (df : DF) (d? : Option Str) :
    addDocumentoOrigem df d? = df ∨
      ∃ f : DRow → Val, addDocumentoOrigem df d? = df.setCol "documento_origem" f := by
  cases d? with
  | none => exact Or.inl rfl
  | some d =>
    by_cases h : (!df.cols.contains "documento_origem") = true ∧ (!d.isEmpty) = true
    · exact Or.inr ⟨fun _ => .str d, by simp only [addDocumentoOrigem, if_pos h]⟩
    · exact Or.inl (by simp only [addDocumentoOrigem, if_neg h])

/-- `addArquivoOrigem` shape. -/
lemma addArquivoOrigem_shape (df : DF) :
    addArquivoOrigem df = df ∨ addArquivoOrigem df = df.setCol "arquivo_origem" (fun _ => .null) := by
  unfold addArquivoOrigem
  split
  · exact Or.inl rfl
  · exact Or.inr rfl

/-- Transport of column membership along a step shape. -/
lemma mem_of_shape {df df' : DF} {c₀ : String}
    (h : df' = df ∨ ∃ f : DRow → Val, df' = df.setCol c₀ f) {c : String}
    (hm : c ∈ df.cols) : c ∈ df'.cols := by
  rcases h with rfl | ⟨f, rfl⟩
  · exact hm
  · exact mem_cols_setCol_of_mem _ _ hm

/-- Transport of column absence along a step shape. -/
lemma notmem_of_shape {df df' : DF} {c₀ : String}
    (h : df' = df ∨ ∃ f : DRow → Val, df' = df.setCol c₀ f) {c : String}
    (hn : c ∉ df.cols) (hne : c ≠ c₀) : c ∉ df'.cols := by
  rcases h with rfl | ⟨f, rfl⟩
  · exact hn
  · exact not_mem_cols_setCol _ hn hne

/-- Transport of the extra-column list along a step shape. -/
lemma filter_of_shape {df df' : DF} {c₀ : String}
    (h : df' = df ∨ ∃ f : DRow → Val, df' = df.setCol c₀ f)
    (hc₀ : MASTER_SCHEMA_COLUMNS.contains c₀ = true) :
    df'.cols.filter (fun x => !MASTER_SCHEMA_COLUMNS.contains x)
      = df.cols.filter (fun x => !MASTER_SCHEMA_COLUMNS.contains x) := by
  rcases h with rfl | ⟨f, rfl⟩
  · rfl
  · exact filter_cols_setCol _ hc₀

/-- Transport of a stable row property along a step shape. -/
lemma allRows_of_shape {df df' : DF} {c₀ : String}
    (h : df' = df ∨ ∃ f : DRow → Val, df' = df.setCol c₀ f) {Φ : DRow → Prop}
    (hpres : ∀ r v, Φ r → Φ (rowSet r c₀ v)) (hΦ : AllRows df Φ) : AllRows df' Φ := by
  rcases h with rfl | ⟨f, rfl⟩
  · exact hΦ
  · exact allRows_setCol_pres hpres hΦ

/-- Weaken a step-shape disjunct with a plain equation to the ∃-form. -/
lemma shape_of_eq {df df' : DF} {c₀ : String} {f : DRow → Val}
    (h : df' = df ∨ df' = df.setCol c₀ f) :
    df' = df ∨ ∃ g : DRow → Val, df' = df.setCol c₀ g := by
  rcases h with h | h
  · exact Or.inl h
  · exact Or.inr ⟨f, h⟩

/-- Column membership across the period split. -/
lemma mem_periodoSplit {df : DF} {c : String} (hm : c ∈ df.cols) :
    c ∈ (addPeriodoSplit df).cols := by
  unfold addPeriodoSplit
  split <;> exact mem_cols_setCol_of_mem _ _ (mem_cols_setCol_of_mem _ _ hm)

/-- The split columns are present after the period split. -/
lemma mem_periodoSplit_inicial (df : DF) : "periodo_inicial" ∈ (addPeriodoSplit df).cols := by
  unfold addPeriodoSplit
  split <;> exact mem_cols_setCol_of_mem _ _ (mem_cols_setCol_self _ _ _)

/-- The split columns are present after the period split. -/
lemma mem_periodoSplit_final (df : DF) : "periodo_final" ∈ (addPeriodoSplit df).cols := by
  unfold addPeriodoSplit
  split <;> exact mem_cols_setCol_self _ _ _

/-- Column absence across the period split, away from the split columns. -/
lemma notmem_periodoSplit {df : DF} {c : String} (hn : c ∉ df.cols)
    (h1 : c ≠ "periodo_inicial") (h2 : c ≠ "periodo_final") :
    c ∉ (addPeriodoSplit df).cols := by
  unfold addPeriodoSplit
  split <;> exact not_mem_cols_setCol _ (not_mem_cols_setCol _ hn h1) h2

/-- The period split does not change the extra-column list. -/
lemma filter_periodoSplit (df : DF) :
    (addPeriodoSplit df).cols.filter (fun x => !MASTER_SCHEMA_COLUMNS.contains x)
      = df.cols.filter (fun x => !MASTER_SCHEMA_COLUMNS.contains x) := by
  unfold addPeriodoSplit
  split <;>
    rw [filter_cols_setCol _ (by decide), filter_cols_setCol _ (by decide)]

/-- The period split preserves a row property stable under `rowSet` at the
two split columns. -/
lemma allRows_periodoSplit {df : DF} {Φ : DRow → Prop}
    (h1 : ∀ r v, Φ r → Φ (rowSet r "periodo_inicial" v))
    (h2 : ∀ r v, Φ r → Φ (rowSet r "periodo_final" v))
    (hΦ : AllRows df Φ) : AllRows (addPeriodoSplit df) Φ := by
  unfold addPeriodoSplit
  split <;> exact allRows_setCol_pres h2 (allRows_setCol_pres h1 hΦ)

/-- With a `periodo` column present, the period split writes the split of
each row's own `periodo` value into the two new columns. -/
lemma periodoSplit_establishes {df : DF} (hper : df.cols.contains "periodo" = true) :
    AllRows (addPeriodoSplit df) (fun r =>
      lookupRow r "periodo_inicial" = (splitValPair (lookupRow r "periodo")).1 ∧
      lookupRow r "periodo_final" = (splitValPair (lookupRow r "periodo")).2) := by
  unfold addPeriodoSplit
  rw [if_pos hper]
  intro r hr
  rw [rows_setCol] at hr
  obtain ⟨r1, hr1, rfl⟩ := List.mem_map.mp hr
  rw [rows_setCol] at hr1
  obtain ⟨r0, _, rfl⟩ := List.mem_map.mp hr1
  have hpi : ("periodo" : String) ≠ "periodo_inicial" := by decide
  have hpf : ("periodo" : String) ≠ "periodo_final" := by decide
  have hif : ("periodo_inicial" : String) ≠ "periodo_final" := by decide
  constructor
  · rw [lookupRow_rowSet_other hif, lookupRow_rowSet_self,
      lookupRow_rowSet_other hpf, lookupRow_rowSet_other hpi]
  · rw [lookupRow_rowSet_self, lookupRow_rowSet_other hpf, lookupRow_rowSet_other hpi]

/-- Without a `periodo` column, the split columns are filled with null. -/
lemma periodoSplit_null {df : DF} (hper : ¬ df.cols.contains "periodo" = true) :
    AllRows (addPeriodoSplit df) (fun r =>
      lookupRow r "periodo_inicial" = .null ∧ lookupRow r "periodo_final" = .null) := by
  unfold addPeriodoSplit
  rw [if_neg hper]
  intro r hr
  rw [rows_setCol] at hr
  obtain ⟨r1, hr1, rfl⟩ := List.mem_map.mp hr
  rw [rows_setCol] at hr1
  obtain ⟨r0, _, rfl⟩ := List.mem_map.mp hr1
  have hif : ("periodo_inicial" : String) ≠ "periodo_final" := by decide
  exact ⟨by rw [lookupRow_rowSet_other hif, lookupRow_rowSet_self],
    by rw [lookupRow_rowSet_self]⟩

/-- The non-empty branch of the projector, written as the explicit chain
of its steps. -/
lemma normalize_eq_chain (df : DF) (tipo : Str) (tit doc : Option Str)
    (hne : df.rows.isEmpty = false) :
    normalize_to_master_schema df tipo tit doc =
      ⟨MASTER_SCHEMA_COLUMNS ++
        (MASTER_SCHEMA_COLUMNS.foldl nullFillStep
          (addPeriodoSplit (addArquivoOrigem (addDocumentoOrigem
            (addTitular (addTipoExtracao df tipo) tit) doc)))).cols.filter
          (fun c => !MASTER_SCHEMA_COLUMNS.contains c),
        (MASTER_SCHEMA_COLUMNS.foldl nullFillStep
          (addPeriodoSplit (addArquivoOrigem (addDocumentoOrigem
            (addTitular (addTipoExtracao df tipo) tit) doc)))).rows⟩ := by
  simp only [normalize_to_master_schema, hne, Bool.false_eq_true, if_false]

/-- A constant-column fact survives a `rowSet` at a different column. -/
lemma lookup_pres_of_ne {c c' : String} (hne : c' ≠ c) {v0 : Val} :
    ∀ (r : DRow) (v : Val), lookupRow r c' = v0 → lookupRow (rowSet r c v) c' = v0 :=
  fun r v hr => by rw [lookupRow_rowSet_other hne]; exact hr

/-- The fixed schema has no duplicate column. -/
lemma master_nodup : MASTER_SCHEMA_COLUMNS.Nodup := by decide

/-- Constant-column preservation hypothesis for the null-fill fold. -/
lemma nullfill_pres_of_const (c' : String) (v0 : Val) :
    ∀ (r : DRow) (cx : String) (v : Val), cx ∉ ([c'] : List String) →
    lookupRow r c' = v0 → lookupRow (rowSet r cx v) c' = v0 := by
  intro r cx v hcx hr
  have hne : c' ≠ cx := fun h => hcx (by rw [← h]; simp)
  rw [lookupRow_rowSet_other hne]
  exact hr

/-- Full behavioral analysis of the projector on non-empty input: schema
prefix with extras appended in encounter order, null fill of untouched
schema columns, context-column fills, and the period split. -/
lemma normalize_analysis (df : DF) (tipo : Str) (tit doc : Option Str)
    (hrows : df.rows ≠ []) :
    (normalize_to_master_schema df tipo tit doc).cols
        = MASTER_SCHEMA_COLUMNS ++
            df.cols.filter (fun c => !MASTER_SCHEMA_COLUMNS.contains c) ∧
    (∀ c ∈ MASTER_SCHEMA_COLUMNS, c ∈ (normalize_to_master_schema df tipo tit doc).cols) ∧
    (∀ c ∈ MASTER_SCHEMA_COLUMNS, c ∉ df.cols →
      c ∉ (["tipo_extracao", "titular", "documento_origem", "periodo_inicial",
        "periodo_final"] : List String) →
      ∀ r ∈ (normalize_to_master_schema df tipo tit doc).rows, lookupRow r c = .null) ∧
    ("tipo_extracao" ∉ df.cols →
      ∀ r ∈ (normalize_to_master_schema df tipo tit doc).rows,
        lookupRow r "tipo_extracao" = .str tipo) ∧
    (∀ t, tit = some t → t ≠ [] → "titular" ∉ df.cols →
      ∀ r ∈ (normalize_to_master_schema df tipo tit doc).rows,
        lookupRow r "titular" = .str t) ∧
    (∀ d, doc = some d → d ≠ [] → "documento_origem" ∉ df.cols →
      ∀ r ∈ (normalize_to_master_schema df tipo tit doc).rows,
        lookupRow r "documento_origem" = .str d) ∧
    ("periodo" ∈ df.cols →
      ∀ r ∈ (normalize_to_master_schema df tipo tit doc).rows,
        lookupRow r "periodo_inicial" = (splitValPair (lookupRow r "periodo")).1 ∧
        lookupRow r "periodo_final" = (splitValPair (lookupRow r "periodo")).2) ∧
    ("periodo" ∉ df.cols →
      ∀ r ∈ (normalize_to_master_schema df tipo tit doc).rows,
        lookupRow r "periodo_inicial" = .null ∧ lookupRow r "periodo_final" = .null) := by
  have hne : df.rows.isEmpty = false := by simpa [List.isEmpty_iff] using hrows
  have hnorm := normalize_eq_chain df tipo tit doc hne
  set st1 := addTipoExtracao df tipo with hst1
  set st2 := addTitular st1 tit with hst2
  set st3 := addDocumentoOrigem st2 doc with hst3
  set st4 := addArquivoOrigem st3 with hst4
  set st5 := addPeriodoSplit st4 with hst5
  set st6 := MASTER_SCHEMA_COLUMNS.foldl nullFillStep st5 with hst6
  clear_value st1 st2 st3 st4 st5 st6
  have s1 := shape_of_eq (addTipoExtracao_shape df tipo)
  have s2 := addTitular_shape st1 tit
  have s3 := addDocumentoOrigem_shape st2 doc
  have s4 := shape_of_eq (addArquivoOrigem_shape st3)
  rw [← hst1] at s1
  rw [← hst2] at s2
  rw [← hst3] at s3
  rw [← hst4] at s4
  have hmaster : ∀ c ∈ MASTER_SCHEMA_COLUMNS, MASTER_SCHEMA_COLUMNS.contains c = true :=
    fun c hc => List.elem_iff.mpr hc
  have hTEti : ("tipo_extracao" : String) ≠ "titular" := by decide
  have hTEdo : ("tipo_extracao" : String) ≠ "documento_origem" := by decide
  have hTEar : ("tipo_extracao" : String) ≠ "arquivo_origem" := by decide
  have hTEpi : ("tipo_extracao" : String) ≠ "periodo_inicial" := by decide
  have hTEpf : ("tipo_extracao" : String) ≠ "periodo_final" := by decide
  have hTIdo : ("titular" : String) ≠ "documento_origem" := by decide
  have hTIar : ("titular" : String) ≠ "arquivo_origem" := by decide
  have hTIpi : ("titular" : String) ≠ "periodo_inicial" := by decide
  have hTIpf : ("titular" : String) ≠ "periodo_final" := by decide
  have hDOar : ("documento_origem" : String) ≠ "arquivo_origem" := by decide
  have hDOpi : ("documento_origem" : String) ≠ "periodo_inicial" := by decide
  have hDOpf : ("documento_origem" : String) ≠ "periodo_final" := by decide
  have hARpi : ("arquivo_origem" : String) ≠ "periodo_inicial" := by decide
  have hARpf : ("arquivo_origem" : String) ≠ "periodo_final" := by decide
  -- (A) column layout
  have hA : (normalize_to_master_schema df tipo tit doc).cols
      = MASTER_SCHEMA_COLUMNS ++
          df.cols.filter (fun c => !MASTER_SCHEMA_COLUMNS.contains c) := by
    rw [hnorm]
    have hf6 := foldl_nullFill_filter MASTER_SCHEMA_COLUMNS hmaster st5
    rw [← hst6] at hf6
    have hf5 := filter_periodoSplit st4
    have hf4 := filter_of_shape s4 (by decide)
    have hf3 := filter_of_shape s3 (by decide)
    have hf2 := filter_of_shape s2 (by decide)
    have hf1 := filter_of_shape s1 (by decide)
    show MASTER_SCHEMA_COLUMNS ++ st6.cols.filter _ = _
    rw [hf6]
    rw [← hst5] at hf5
    rw [hf5, hf4, hf3, hf2, hf1]
  refine ⟨hA, ?_, ?_, ?_, ?_, ?_, ?_, ?_⟩
  · intro c hc
    rw [hA]
    exact List.mem_append_left _ hc
  · -- null fill of untouched schema columns
    intro c hc habs hnotctx
    have hn1 : c ≠ "tipo_extracao" := fun h => hnotctx (by simp [h])
    have hn2 : c ≠ "titular" := fun h => hnotctx (by simp [h])
    have hn3 : c ≠ "documento_origem" := fun h => hnotctx (by simp [h])
    have hn4 : c ≠ "periodo_inicial" := fun h => hnotctx (by simp [h])
    have hn5 : c ≠ "periodo_final" := fun h => hnotctx (by simp [h])
    have habs3 : c ∉ st3.cols :=
      notmem_of_shape s3 (notmem_of_shape s2 (notmem_of_shape s1 habs hn1) hn2) hn3
    rw [hnorm]
    by_cases harq : c = "arquivo_origem"
    · -- filled with an explicit null by the `arquivo_origem` step
      subst harq
      have hc3 : ¬ st3.cols.contains "arquivo_origem" = true :=
        fun h => habs3 (List.elem_iff.mp h)
      have hstep : st4 = st3.setCol "arquivo_origem" (fun _ => .null) := by
        rw [hst4]
        unfold addArquivoOrigem
        rw [if_neg hc3]
      have h4 : AllRows st4 (fun r => lookupRow r "arquivo_origem" = .null) := by
        rw [hstep]
        exact allRows_setCol_const _ _ _
      have h5 : AllRows st5 (fun r => lookupRow r "arquivo_origem" = .null) := by
        rw [hst5]
        exact allRows_periodoSplit (lookup_pres_of_ne hARpi) (lookup_pres_of_ne hARpf) h4
      have hm5 : "arquivo_origem" ∈ st5.cols := by
        rw [hst5]
        refine mem_periodoSplit ?_
        rw [hstep]
        exact mem_cols_setCol_self _ _ _
      have hfin := foldl_nullFill_pres ["arquivo_origem"] _
        (nullfill_pres_of_const "arquivo_origem" .null)
        MASTER_SCHEMA_COLUMNS st5
        (fun x _ hxS => by simp at hxS; exact hxS ▸ hm5) h5
      rw [← hst6] at hfin
      exact hfin
    · -- untouched anywhere: the master fold writes the null
      have habs4 : c ∉ st4.cols := notmem_of_shape s4 habs3 harq
      have habs5 : c ∉ st5.cols := by
        rw [hst5]
        exact notmem_periodoSplit habs4 hn4 hn5
      have hfin := foldl_nullFill_null MASTER_SCHEMA_COLUMNS st5 master_nodup hc habs5
      rw [← hst6] at hfin
      exact hfin
  · -- tipo_extracao fill
    intro habs
    rw [hnorm]
    have hc0 : ¬ df.cols.contains "tipo_extracao" = true :=
      fun h => habs (List.elem_iff.mp h)
    have hstep : st1 = df.setCol "tipo_extracao" (fun _ => .str tipo) := by
      rw [hst1]
      unfold addTipoExtracao
      rw [if_neg hc0]
    have h1 : AllRows st1 (fun r => lookupRow r "tipo_extracao" = .str tipo) := by
      rw [hstep]; exact allRows_setCol_const _ _ _
    have hm1 : "tipo_extracao" ∈ st1.cols := by
      rw [hstep]; exact mem_cols_setCol_self _ _ _
    have h2 := allRows_of_shape s2 (lookup_pres_of_ne hTEti) h1
    have h3 := allRows_of_shape s3 (lookup_pres_of_ne hTEdo) h2
    have h4 := allRows_of_shape s4 (lookup_pres_of_ne hTEar) h3
    have h5 : AllRows st5 (fun r => lookupRow r "tipo_extracao" = .str tipo) := by
      rw [hst5]
      exact allRows_periodoSplit (lookup_pres_of_ne hTEpi) (lookup_pres_of_ne hTEpf) h4
    have hm5 : "tipo_extracao" ∈ st5.cols := by
      rw [hst5]
      exact mem_periodoSplit (mem_of_shape s4 (mem_of_shape s3 (mem_of_shape s2 hm1)))
    have hfin := foldl_nullFill_pres ["tipo_extracao"] _
      (nullfill_pres_of_const "tipo_extracao" (.str tipo))
      MASTER_SCHEMA_COLUMNS st5
      (fun x _ hxS => by simp at hxS; exact hxS ▸ hm5) h5
    rw [← hst6] at hfin
    exact hfin
  · -- titular fill
    intro t htit htne habs
    rw [hnorm]
    have habs1 : "titular" ∉ st1.cols := notmem_of_shape s1 habs (Ne.symm hTEti)
    have hc1 : (!st1.cols.contains "titular") = true := by
      simp only [Bool.not_eq_true']
      exact Bool.eq_false_iff.mpr (fun h => habs1 (List.elem_iff.mp h))
    have hte : (!t.isEmpty) = true := by
      simp only [Bool.not_eq_true']
      exact Bool.eq_false_iff.mpr (by simpa [List.isEmpty_iff] using htne)
    have hstep : st2 = st1.setCol "titular" (fun _ => .str t) := by
      rw [hst2, htit]
      simp only [addTitular]
      rw [if_pos ⟨hc1, hte⟩]
    have h2 : AllRows st2 (fun r => lookupRow r "titular" = .str t) := by
      rw [hstep]; exact allRows_setCol_const _ _ _
    have hm2 : "titular" ∈ st2.cols := by
      rw [hstep]; exact mem_cols_setCol_self _ _ _
    have h3 := allRows_of_shape s3 (lookup_pres_of_ne hTIdo) h2
    have h4 := allRows_of_shape s4 (lookup_pres_of_ne hTIar) h3
    have h5 : AllRows st5 (fun r => lookupRow r "titular" = .str t) := by
      rw [hst5]
      exact allRows_periodoSplit (lookup_pres_of_ne hTIpi) (lookup_pres_of_ne hTIpf) h4
    have hm5 : "titular" ∈ st5.cols := by
      rw [hst5]
      exact mem_periodoSplit (mem_of_shape s4 (mem_of_shape s3 hm2))
    have hfin := foldl_nullFill_pres ["titular"] _
      (nullfill_pres_of_const "titular" (.str t))
      MASTER_SCHEMA_COLUMNS st5
      (fun x _ hxS => by simp at hxS; exact hxS ▸ hm5) h5
    rw [← hst6] at hfin
    exact hfin
  · -- documento_origem fill
    intro d hdoc hdne habs
    rw [hnorm]
    have habs2 : "documento_origem" ∉ st2.cols :=
      notmem_of_shape s2 (notmem_of_shape s1 habs (Ne.symm hTEdo)) (Ne.symm hTIdo)
    have hc2 : (!st2.cols.contains "documento_origem") = true := by
      simp only [Bool.not_eq_true']
      exact Bool.eq_false_iff.mpr (fun h => habs2 (List.elem_iff.mp h))
    have hde : (!d.isEmpty) = true := by
      simp only [Bool.not_eq_true']
      exact Bool.eq_false_iff.mpr (by simpa [List.isEmpty_iff] using hdne)
    have hstep : st3 = st2.setCol "documento_origem" (fun _ => .str d) := by
      rw [hst3, hdoc]
      simp only [addDocumentoOrigem]
      rw [if_pos ⟨hc2, hde⟩]
    have h3 : AllRows st3 (fun r => lookupRow r "documento_origem" = .str d) := by
      rw [hstep]; exact allRows_setCol_const _ _ _
    have hm3 : "documento_origem" ∈ st3.cols := by
      rw [hstep]; exact mem_cols_setCol_self _ _ _
    have h4 := allRows_of_shape s4 (lookup_pres_of_ne hDOar) h3
    have h5 : AllRows st5 (fun r => lookupRow r "documento_origem" = .str d) := by
      rw [hst5]
      exact allRows_periodoSplit (lookup_pres_of_ne hDOpi) (lookup_pres_of_ne hDOpf) h4
    have hm5 : "documento_origem" ∈ st5.cols := by
      rw [hst5]
      exact mem_periodoSplit (mem_of_shape s4 hm3)
    have hfin := foldl_nullFill_pres ["documento_origem"] _
      (nullfill_pres_of_const "documento_origem" (.str d))
      MASTER_SCHEMA_COLUMNS st5
      (fun x _ hxS => by simp at hxS; exact hxS ▸ hm5) h5
    rw [← hst6] at hfin
    exact hfin
  · -- the period split with a periodo column
    intro hper
    rw [hnorm]
    have hm4 : "periodo" ∈ st4.cols :=
      mem_of_shape s4 (mem_of_shape s3 (mem_of_shape s2 (mem_of_shape s1 hper)))
    have h5 : AllRows st5 (fun r =>
        lookupRow r "periodo_inicial" = (splitValPair (lookupRow r "periodo")).1 ∧
        lookupRow r "periodo_final" = (splitValPair (lookupRow r "periodo")).2) := by
      rw [hst5]
      exact periodoSplit_establishes (List.elem_iff.mpr hm4)
    have hpres : ∀ (r : DRow) (cx : String) (v : Val),
        cx ∉ (["periodo", "periodo_inicial", "periodo_final"] : List String) →
        (lookupRow r "periodo_inicial" = (splitValPair (lookupRow r "periodo")).1 ∧
          lookupRow r "periodo_final" = (splitValPair (lookupRow r "periodo")).2) →
        (lookupRow (rowSet r cx v) "periodo_inicial"
            = (splitValPair (lookupRow (rowSet r cx v) "periodo")).1 ∧
          lookupRow (rowSet r cx v) "periodo_final"
            = (splitValPair (lookupRow (rowSet r cx v) "periodo")).2) := by
      intro r cx v hcx hr
      have e1 : ("periodo" : String) ≠ cx := fun h => hcx (by rw [← h]; simp)
      have e2 : ("periodo_inicial" : String) ≠ cx := fun h => hcx (by rw [← h]; simp)
      have e3 : ("periodo_final" : String) ≠ cx := fun h => hcx (by rw [← h]; simp)
      rw [lookupRow_rowSet_other e1, lookupRow_rowSet_other e2, lookupRow_rowSet_other e3]
      exact hr
    have hm5per : "periodo" ∈ st5.cols := by rw [hst5]; exact mem_periodoSplit hm4
    have hm5pi : "periodo_inicial" ∈ st5.cols := by
      rw [hst5]; exact mem_periodoSplit_inicial st4
    have hm5pf : "periodo_final" ∈ st5.cols := by
      rw [hst5]; exact mem_periodoSplit_final st4
    have hsub : ∀ x ∈ MASTER_SCHEMA_COLUMNS,
        x ∈ (["periodo", "periodo_inicial", "periodo_final"] : List String) →
        x ∈ st5.cols := by
      intro x _ hxS
      simp only [List.mem_cons, List.not_mem_nil, or_false] at hxS
      rcases hxS with rfl | rfl | rfl
      · exact hm5per
      · exact hm5pi
      · exact hm5pf
    have hfin := foldl_nullFill_pres ["periodo", "periodo_inicial", "periodo_final"] _ hpres
      MASTER_SCHEMA_COLUMNS st5 hsub h5
    rw [← hst6] at hfin
    exact hfin
  · -- null split columns without a periodo column
    intro hper
    rw [hnorm]
    have habs4 : "periodo" ∉ st4.cols := by
      refine notmem_of_shape s4 ?_ (by decide)
      refine notmem_of_shape s3 ?_ (by decide)
      refine notmem_of_shape s2 ?_ (by decide)
      exact notmem_of_shape s1 hper (by decide)
    have h5 : AllRows st5 (fun r =>
        lookupRow r "periodo_inicial" = .null ∧ lookupRow r "periodo_final" = .null) := by
      rw [hst5]
      exact periodoSplit_null (fun h => habs4 (List.elem_iff.mp h))
    have hpres : ∀ (r : DRow) (cx : String) (v : Val),
        cx ∉ (["periodo_inicial", "periodo_final"] : List String) →
        (lookupRow r "periodo_inicial" = .null ∧ lookupRow r "periodo_final" = .null) →
        (lookupRow (rowSet r cx v) "periodo_inicial" = .null ∧
          lookupRow (rowSet r cx v) "periodo_final" = .null) := by
      intro r cx v hcx hr
      have e2 : ("periodo_inicial" : String) ≠ cx := fun h => hcx (by rw [← h]; simp)
      have e3 : ("periodo_final" : String) ≠ cx := fun h => hcx (by rw [← h]; simp)
      rw [lookupRow_rowSet_other e2, lookupRow_rowSet_other e3]
      exact hr
    have hm5pi : "periodo_inicial" ∈ st5.cols := by
      rw [hst5]; exact mem_periodoSplit_inicial st4
    have hm5pf : "periodo_final" ∈ st5.cols := by
      rw [hst5]; exact mem_periodoSplit_final st4
    have hsub : ∀ x ∈ MASTER_SCHEMA_COLUMNS,
        x ∈ (["periodo_inicial", "periodo_final"] : List String) → x ∈ st5.cols := by
      intro x _ hxS
      simp only [List.mem_cons, List.not_mem_nil, or_false] at hxS
      rcases hxS with rfl | rfl
      · exact hm5pi
      · exact hm5pf
    have hfin := foldl_nullFill_pres ["periodo_inicial", "periodo_final"] _ hpres
      MASTER_SCHEMA_COLUMNS st5 hsub h5
    rw [← hst6] at hfin
    exact hfin

/-- Empty input short-circuits to the bare schema with no rows. -/
lemma normalize_empty (df : DF) (tipo : Str) (tit doc : Option Str)
    (h : df.rows = []) :
    normalize_to_master_schema df tipo tit doc = ⟨MASTER_SCHEMA_COLUMNS, []⟩ := by
  unfold normalize_to_master_schema
  rw [if_pos (by simp [List.isEmpty_iff, h])]

/-- **C4** (corrected): on a non-empty input the projector emits every
fixed-schema column in fixed order with extras appended in encounter
order, null-fills the schema columns the input lacks other than the
context columns, fills an absent `tipo_extracao` with the extraction-type
string, and splits the period column; on an empty input it returns the
bare twenty-column schema with no rows, dropping any extra input
columns. -/
theorem C4_schema_projection (df : DF) (tipo : Str) (tit doc : Option Str) :
    (df.rows = [] →
      normalize_to_master_schema df tipo tit doc = ⟨MASTER_SCHEMA_COLUMNS, []⟩) ∧
    (df.rows ≠ [] →
      (normalize_to_master_schema df tipo tit doc).cols
          = MASTER_SCHEMA_COLUMNS ++
              df.cols.filter (fun c => !MASTER_SCHEMA_COLUMNS.contains c) ∧
      (∀ c ∈ MASTER_SCHEMA_COLUMNS, c ∈ (normalize_to_master_schema df tipo tit doc).cols) ∧
      (∀ c ∈ MASTER_SCHEMA_COLUMNS, c ∉ df.cols →
        c ∉ (["tipo_extracao", "titular", "documento_origem", "periodo_inicial",
          "periodo_final"] : List String) →
        ∀ r ∈ (normalize_to_master_schema df tipo tit doc).rows, lookupRow r c = .null) ∧
      ("tipo_extracao" ∉ df.cols →
        ∀ r ∈ (normalize_to_master_schema df tipo tit doc).rows,
          lookupRow r "tipo_extracao" = .str tipo) ∧
      ("periodo" ∈ df.cols →
        ∀ r ∈ (normalize_to_master_schema df tipo tit doc).rows,
          lookupRow r "periodo_inicial" = (splitValPair (lookupRow r "periodo")).1 ∧
          lookupRow r "periodo_final" = (splitValPair (lookupRow r "periodo")).2) ∧
      ("periodo" ∉ df.cols →
        ∀ r ∈ (normalize_to_master_schema df tipo tit doc).rows,
          lookupRow r "periodo_inicial" = .null ∧ lookupRow r "periodo_final" = .null)) := by
  refine ⟨normalize_empty df tipo tit doc, fun h => ?_⟩
  obtain ⟨a, b, c, d, _, _, g, i⟩ := normalize_analysis df tipo tit doc h
  exact ⟨a, b, c, d, g, i⟩

/-- **C4** witness: a concrete one-row input lacking `tipo_extracao`
receives the extraction-type string in that column. -/
theorem C4_schema_projection_witness :
    ([[("rubrica", Val.str "R".data)]] : List DRow) ≠ [] ∧
    ∀ r ∈ (normalize_to_master_schema ⟨["rubrica"], [[("rubrica", Val.str "R".data)]]⟩
        "T".data none none).rows,
      lookupRow r "tipo_extracao" = .str "T".data :=
  ⟨by decide,
    ((C4_schema_projection ⟨["rubrica"], [[("rubrica", Val.str "R".data)]]⟩
        "T".data none none).2 (by decide)).2.2.2.1 (by decide)⟩

/-- **C4** counterexample: with an empty row set the extra column `"x"` is
dropped instead of appended, and on a one-row input the absent
`tipo_extracao` column is filled with the extraction-type string rather
than with null. -/
theorem C4_schema_projection_cex :
    (normalize_to_master_schema ⟨["x"], []⟩ "T".data none none).cols
        = MASTER_SCHEMA_COLUMNS ∧
    "x" ∉ (normalize_to_master_schema ⟨["x"], []⟩ "T".data none none).cols ∧
    (∀ r ∈ (normalize_to_master_schema ⟨["rubrica"], [[("rubrica", Val.str "R".data)]]⟩
        "T".data none none).rows,
      lookupRow r "tipo_extracao" = Val.str "T".data ∧
        lookupRow r "tipo_extracao" ≠ Val.null) := by
  exact ⟨rfl, by decide, by decide⟩

/-- When neither data cascade nor the chapter pattern matches, the
data-line tail leaves the state untouched. -/
lemma dataStep_of_nomatch (ctx : ExtCtx) (lines : List Str) (st : ExtState) (line : Str)
    (h1 : reMatch re_data_line line = none)
    (h2 : reMatch re_data_line_digital line = none)
    (h3 : reMatch re_capitulo line = none) :
    dataStep ctx lines st line = st := by
  unfold dataStep
  rw [h1, h2, h3]

/-- A line on which the three row-emitting patterns all fail never adds a
row, whatever other state bookkeeping it performs. -/
lemma processLine_rows_of_nomatch (ctx : ExtCtx) (lines : List Str) (st : ExtState)
    (raw : Str)
    (h1 : reMatch re_data_line (trim raw) = none)
    (h2 : reMatch re_data_line_digital (trim raw) = none)
    (h3 : reMatch re_capitulo (trim raw) = none) :
    (processLine ctx lines st raw).rows = st.rows := by
  have hds : ∀ s : ExtState, dataStep ctx lines s (trim raw) = s := fun s =>
    dataStep_of_nomatch ctx lines s (trim raw) h1 h2 h3
  unfold processLine
  simp only [hds]
  repeat' split <;> try rfl

/-- Folding the line loop over cascade-free lines preserves the row list. -/
lemma foldl_processLine_rows (ctx : ExtCtx) (lines : List Str) (l : List Str)
    (st : ExtState)
    (h : ∀ raw ∈ l, reMatch re_data_line (trim raw) = none ∧
      reMatch re_data_line_digital (trim raw) = none ∧
      reMatch re_capitulo (trim raw) = none) :
    (l.foldl (processLine ctx lines) st).rows = st.rows := by
  induction l generalizing st with
  | nil => rfl
  | cons a tl ih =>
    simp only [List.foldl_cons]
    rw [ih (processLine ctx lines st a) (fun r hr => h r (List.mem_cons_of_mem a hr))]
    exact processLine_rows_of_nomatch ctx lines st a (h a (List.mem_cons_self a tl)).1
      (h a (List.mem_cons_self a tl)).2.1 (h a (List.mem_cons_self a tl)).2.2

/-- The page loop over cascade-free pages preserves the row list. -/
lemma pages_foldl_rows (ctx : ExtCtx) (ps : List (List Str)) (st : ExtState)
    (h : ∀ page ∈ ps, ∀ raw ∈ page, reMatch re_data_line (trim raw) = none ∧
      reMatch re_data_line_digital (trim raw) = none ∧
      reMatch re_capitulo (trim raw) = none) :
    (ps.foldl (fun st lines => lines.foldl (processLine ctx lines) { st with skip := true })
      st).rows = st.rows := by
  induction ps generalizing st with
  | nil => rfl
  | cons p tl ih =>
    simp only [List.foldl_cons]
    rw [ih _ (fun pg hpg => h pg (List.mem_cons_of_mem p hpg))]
    exact foldl_processLine_rows ctx p p { st with skip := true } (h p (List.mem_cons_self p tl))

/-- A run of the standard extractor over a document with no cascade
matches yields the bare schema-shaped empty frame. -/
lemma extract_demonstrativo_padrao_empty (doc : PdfDoc) (tipo orig : Str)
    (h : ∀ page ∈ doc.pageLines, ∀ raw ∈ page, reMatch re_data_line (trim raw) = none ∧
      reMatch re_data_line_digital (trim raw) = none ∧
      reMatch re_capitulo (trim raw) = none) :
    extract_demonstrativo_padrao doc tipo orig = ⟨MASTER_SCHEMA_COLUMNS, []⟩ := by
  have hr := pages_foldl_rows
    ⟨tipo, orig, (extract_header_info doc.firstPageText).titular,
      (extract_header_info doc.firstPageText).periodo_distribuicao⟩
    doc.pageLines ⟨true, none, none, none, []⟩ h
  simp only [extract_demonstrativo_padrao]
  split
  · rfl
  · rename_i hcond
    exact absurd (by rw [hr]; rfl) hcond

/-- **C5**: when the first page identifies one of the standard-statement
layouts and no line of any page matches a data cascade or the chapter
pattern, the orchestrator succeeds with that layout name and an empty
frame that still carries the full fixed schema column set — never an
error. -/
theorem C5_zero_row_resilience (doc : PdfDoc) (orig : Str) (name : String)
    (hid : identify_layout doc.firstPageText = some name)
    (hname : name ∈ (["DEMONSTRATIVO_TITULAR", "DEMONSTRATIVO_SERVICOS_DIGITAIS",
      "DEMONSTRATIVO_ANTECIPACAO_PRESCRITOS", "DISTRIBUICAO_PRESCRITIVEIS"] : List String))
    (h : ∀ page ∈ doc.pageLines, ∀ raw ∈ page,
      reMatch re_data_line (trim raw) = none ∧
      reMatch re_data_line_digital (trim raw) = none ∧
      reMatch re_capitulo (trim raw) = none) :
    extract_pdf doc orig = .ok (name, ⟨MASTER_SCHEMA_COLUMNS, []⟩) := by
  simp only [extract_pdf, hid]
  fin_cases hname
  · show Except.ok ("DEMONSTRATIVO_TITULAR",
        extract_demonstrativo_padrao doc "DEMONSTRATIVO_TITULAR".data orig) = _
    rw [extract_demonstrativo_padrao_empty doc "DEMONSTRATIVO_TITULAR".data orig h]
  · show Except.ok ("DEMONSTRATIVO_SERVICOS_DIGITAIS",
        extract_demonstrativo_padrao doc "DEMONSTRATIVO_SERVICOS_DIGITAIS".data orig) = _
    rw [extract_demonstrativo_padrao_empty doc "DEMONSTRATIVO_SERVICOS_DIGITAIS".data orig h]
  · show Except.ok ("DEMONSTRATIVO_ANTECIPACAO_PRESCRITOS",
        extract_demonstrativo_padrao doc "DEMONSTRATIVO_ANTECIPACAO_PRESCRITOS".data orig)
        = _
    rw [extract_demonstrativo_padrao_empty doc
      "DEMONSTRATIVO_ANTECIPACAO_PRESCRITOS".data orig h]
  · show Except.ok ("DISTRIBUICAO_PRESCRITIVEIS",
        extract_demonstrativo_padrao doc "DISTRIBUICAO_PRESCRITIVEIS".data orig) = _
    rw [extract_demonstrativo_padrao_empty doc "DISTRIBUICAO_PRESCRITIVEIS".data orig h]

/-- **C5** witness: a one-page document whose first page names the
standard statement and whose single body line matches nothing. -/
theorem C5_zero_row_resilience_witness :
    identify_layout "DEMONSTRATIVO DO TITULAR EXECUÇÃO PÚBLICA".data
        = some "DEMONSTRATIVO_TITULAR" ∧
    extract_pdf ⟨"DEMONSTRATIVO DO TITULAR EXECUÇÃO PÚBLICA".data, [["HELLO".data]]⟩
        "f.pdf".data
      = .ok ("DEMONSTRATIVO_TITULAR", ⟨MASTER_SCHEMA_COLUMNS, []⟩) :=
  ⟨by decide,
    C5_zero_row_resilience ⟨"DEMONSTRATIVO DO TITULAR EXECUÇÃO PÚBLICA".data,
        [["HELLO".data]]⟩ "f.pdf".data "DEMONSTRATIVO_TITULAR" (by decide) (by decide)
      (by
        intro page hp raw hr
        simp only [List.mem_singleton] at hp
        subst hp
        simp only [List.mem_singleton] at hr
        subst hr
        exact ⟨by decide, by decide, by decide⟩)⟩

/-- A state change of the data-line tail always leaves a cleared pending
code: both row-emitting branches set it to none. -/
lemma dataStep_isrc_of_rows_changed (ctx : ExtCtx) (lines : List Str) (s : ExtState)
    (line : Str) :
    (dataStep ctx lines s line).rows ≠ s.rows → (dataStep ctx lines s line).isrc = none := by
  unfold dataStep
  dsimp only
  repeat' split
  all_goals intro h
  all_goals first
    | rfl
    | exact absurd rfl h

/-- Any loop iteration that emits a row leaves the pending code cleared. -/
lemma processLine_isrc_of_rows_changed (ctx : ExtCtx) (lines : List Str) (st : ExtState)
    (raw : Str)
    (h : (processLine ctx lines st raw).rows ≠ st.rows) :
    (processLine ctx lines st raw).isrc = none := by
  revert h
  unfold processLine
  dsimp only
  repeat' split
  all_goals intro h
  all_goals first
    | rfl
    | exact absurd rfl h
    | exact dataStep_isrc_of_rows_changed _ _ _ _ h

/-- A work-header line (no inline code of its own, outside the skip band)
clears the pending code without emitting a row. -/
lemma processLine_header_reset (ctx : ExtCtx) (lines : List Str) (st : ExtState)
    (raw : Str) (m : Caps × Str)
    (hne : (trim raw).isEmpty = false)
    (hskip : st.skip = false)
    (hban : hasSubL "DISTRIBUIÇÃO DE DIREITOS" (trim raw) = false)
    (hfur : hasAnySub pageFurnitureKws (trim raw) = false)
    (hisrc : extract_isrc_from_line (trim raw) = none)
    (hhdr : reMatch re_obra_header (trim raw) = some m) :
    (processLine ctx lines st raw).isrc = none ∧
    (processLine ctx lines st raw).rows = st.rows := by
  unfold processLine
  simp only [hne, hskip, hban, hfur, hisrc, hhdr, Bool.false_eq_true, if_false]
  exact ⟨trivial, trivial⟩

/-- **C10**: the pending ISRC is reset to none by every loop iteration
that emits a data or chapter row, and by every work-header line; hence a
supplementary code attaches to at most the first row emitted after its
capture unless rediscovered by the windowed backfill. -/
theorem C10_pending_isrc_reset (ctx : ExtCtx) (lines : List Str) (st : ExtState)
    (raw : Str) :
    ((processLine ctx lines st raw).rows ≠ st.rows →
      (processLine ctx lines st raw).isrc = none) ∧
    (∀ m : Caps × Str, (trim raw).isEmpty = false → st.skip = false →
      hasSubL "DISTRIBUIÇÃO DE DIREITOS" (trim raw) = false →
      hasAnySub pageFurnitureKws (trim raw) = false →
      extract_isrc_from_line (trim raw) = none →
      reMatch re_obra_header (trim raw) = some m →
      (processLine ctx lines st raw).isrc = none ∧
      (processLine ctx lines st raw).rows = st.rows) :=
  ⟨processLine_isrc_of_rows_changed ctx lines st raw,
   fun m hne hskip hban hfur hisrc hhdr =>
     processLine_header_reset ctx lines st raw m hne hskip hban hfur hisrc hhdr⟩

/-- **C10** witness: a concrete data line emits a row out of a state whose
pending code was set, and the resulting state's pending code is cleared. -/
theorem C10_pending_isrc_reset_witness :
    (processLine ⟨"T".data, "f.pdf".data, none, none⟩
        ["ARTIST NAME SDI 01/2024 1,00 50,00 0,50 --- 10 A BR".data]
        ⟨false, some "123".data, some "SONG".data, some "BRABC1234567".data, []⟩
        "ARTIST NAME SDI 01/2024 1,00 50,00 0,50 --- 10 A BR".data).rows
      ≠ (⟨false, some "123".data, some "SONG".data, some "BRABC1234567".data, []⟩
          : ExtState).rows ∧
    (processLine ⟨"T".data, "f.pdf".data, none, none⟩
        ["ARTIST NAME SDI 01/2024 1,00 50,00 0,50 --- 10 A BR".data]
        ⟨false, some "123".data, some "SONG".data, some "BRABC1234567".data, []⟩
        "ARTIST NAME SDI 01/2024 1,00 50,00 0,50 --- 10 A BR".data).isrc = none :=
  ⟨by decide,
    (C10_pending_isrc_reset ⟨"T".data, "f.pdf".data, none, none⟩
        ["ARTIST NAME SDI 01/2024 1,00 50,00 0,50 --- 10 A BR".data]
        ⟨false, some "123".data, some "SONG".data, some "BRABC1234567".data, []⟩
        "ARTIST NAME SDI 01/2024 1,00 50,00 0,50 --- 10 A BR".data).1 (by decide)⟩

/-- First-hit search distributes over list append. -/
lemma findSome?_append {α β : Type} (f : α → Option β) (l1 l2 : List α) :
    (l1 ++ l2).findSome? f = (l1.findSome? f).orElse (fun _ => l2.findSome? f) := by
  induction l1 with
  | nil => simp [List.findSome?]
  | cons a t ih =>
    simp only [List.cons_append, List.findSome?_cons]
    cases f a <;> simp [ih, Option.orElse]

/-- The window scan distributes over an index-list append. -/
lemma windowScan_append (lines : List Str) (i : Nat) (js1 js2 : List Nat) :
    windowScan lines i (js1 ++ js2)
      = (windowScan lines i js1).orElse (fun _ => windowScan lines i js2) := by
  induction js1 with
  | nil => simp [windowScan, Option.orElse]
  | cons j t ih =>
    simp only [List.cons_append, windowScan, List.append_eq]
    by_cases hj : j = i
    · rw [if_pos hj, if_pos hj, ih]
    · rw [if_neg hj, if_neg hj]
      cases he : extract_isrc_from_line (lines.getD j []) <;> simp [ih, Option.orElse]

/-- Away from the centre index the window scan is a first-hit search over
the indexed lines. -/
lemma windowScan_eq_findSome (lines : List Str) (i : Nat) (js : List Nat)
    (h : ∀ j ∈ js, j ≠ i) :
    windowScan lines i js
      = (js.map (fun j => lines.getD j [])).findSome? extract_isrc_from_line := by
  induction js with
  | nil => rfl
  | cons j t ih =>
    simp only [windowScan, List.map_cons, List.findSome?_cons]
    rw [if_neg (h j (List.mem_cons_self j t))]
    cases he : extract_isrc_from_line (lines.getD j []) with
    | none => simpa using ih (fun x hx => h x (List.mem_cons_of_mem j hx))
    | some c => rfl

/-- Indexing a contiguous range out of a list is a drop-and-take. -/
lemma map_getD_range' (L : List Str) : ∀ (c a : Nat), a + c ≤ L.length →
    (List.range' a c).map (fun j => L.getD j []) = (L.drop a).take c := by
  intro c
  induction c with
  | zero => intro a _; simp
  | succ m ih =>
    intro a h
    have ha : a < L.length := by omega
    rw [List.range'_succ]
    simp only [List.map_cons]
    rw [List.getD_eq_getElem L [] ha, ih (a + 1) (by omega),
      List.drop_eq_getElem_cons ha, List.take_succ_cons]

/-- The index of the first occurrence after a clean prefix. -/
lemma indexOf_first_occ (line : Str) (post : List Str) :
    ∀ pre : List Str, line ∉ pre → (pre ++ line :: post).indexOf line = pre.length := by
  intro pre
  induction pre with
  | nil =>
    intro _
    simp [List.indexOf_cons, beq_self_eq_true]
  | cons p ps ih =>
    intro h
    have hne : (p == line) = false := by
      rw [beq_eq_false_iff_ne]
      intro e
      exact h (e ▸ List.mem_cons_self p ps)
    simp [List.indexOf_cons, hne, ih (fun hm => h (List.mem_cons_of_mem p hm))]

/-- The width-2 window centred on the first occurrence of a line scans
exactly the last two preceding and first two following lines, in that
order, first hit winning. -/
lemma window_first_occurrence (pre post : List Str) (line : Str) (hline : line ∉ pre) :
    extract_isrc_from_window (pre ++ line :: post) ((pre ++ line :: post).indexOf line) 2
      = (pre.drop (pre.length - 2) ++ post.take 2).findSome? extract_isrc_from_line := by
  have hidx : (pre ++ line :: post).indexOf line = pre.length :=
    indexOf_first_occ line post pre hline
  rw [hidx]
  have hlen : (pre ++ line :: post).length = pre.length + 1 + post.length := by
    simp only [List.length_append, List.length_cons]
    omega
  unfold extract_isrc_from_window
  rw [show min (pre ++ line :: post).length (pre.length + 2 + 1) - (pre.length - 2)
      = ((1 + (min (pre ++ line :: post).length (pre.length + 3) - (pre.length + 1)))
          + (pre.length - (pre.length - 2))) from by omega]
  rw [← List.range'_append (pre.length - 2) (pre.length - (pre.length - 2))
      (1 + (min (pre ++ line :: post).length (pre.length + 3) - (pre.length + 1))) 1]
  rw [show pre.length - 2 + 1 * (pre.length - (pre.length - 2)) = pre.length from by omega]
  rw [show (1 + (min (pre ++ line :: post).length (pre.length + 3) - (pre.length + 1)))
      = ((min (pre ++ line :: post).length (pre.length + 3) - (pre.length + 1)) + 1)
      from by omega]
  rw [← List.range'_append pre.length 1
      (min (pre ++ line :: post).length (pre.length + 3) - (pre.length + 1)) 1]
  rw [show pre.length + 1 * 1 = pre.length + 1 from by omega]
  rw [windowScan_append, windowScan_append]
  have hA : windowScan (pre ++ line :: post) pre.length
      (List.range' (pre.length - 2) (pre.length - (pre.length - 2)))
      = (pre.drop (pre.length - 2)).findSome? extract_isrc_from_line := by
    rw [windowScan_eq_findSome _ _ _
      (fun j hj => by rw [List.mem_range'_1] at hj; omega)]
    rw [map_getD_range' _ _ _ (by omega)]
    rw [List.drop_append_of_le_length (by omega)]
    rw [List.take_left' (by rw [List.length_drop])]
  have hB : windowScan (pre ++ line :: post) pre.length (List.range' pre.length 1)
      = none := by
    rw [List.range'_one]
    simp [windowScan]
  have hC : windowScan (pre ++ line :: post) pre.length
      (List.range' (pre.length + 1)
        (min (pre ++ line :: post).length (pre.length + 3) - (pre.length + 1)))
      = (post.take 2).findSome? extract_isrc_from_line := by
    rw [windowScan_eq_findSome _ _ _
      (fun j hj => by rw [List.mem_range'_1] at hj; omega)]
    rw [map_getD_range' _ _ _ (by omega)]
    rw [show (pre ++ line :: post).drop (pre.length + 1) = post from by
      rw [List.drop_append 1]
      rfl]
    rcases le_or_lt post.length 2 with hp | hp
    · rw [show min (pre ++ line :: post).length (pre.length + 3) - (pre.length + 1)
          = post.length from by omega]
      rw [List.take_length, List.take_of_length_le hp]
    · rw [show min (pre ++ line :: post).length (pre.length + 3) - (pre.length + 1)
          = 2 from by omega]
  rw [hA, hB, hC, findSome?_append]
  cases (pre.drop (pre.length - 2)).findSome? extract_isrc_from_line <;>
    simp [Option.orElse]

/-- The backfill actually performed for a matched data line with no
pending code: a window scan only when the stripped line occurs verbatim
in the raw line list, centred on its first occurrence. -/
lemma dataStep_emission (ctx : ExtCtx) (lines : List Str) (st : ExtState) (line : Str)
    (dm : Caps × Str) (hm : reMatch re_data_line line = some dm)
    (hisrc : st.isrc = none) :
    dataStep ctx lines st line =
      { st with
        rows := st.rows ++ [mkDataRow ctx st dm.1
          (if lines.contains line then
            extract_isrc_from_window lines (lines.indexOf line) 2
          else none)],
        isrc := none } := by
  unfold dataStep
  simp only [hm, hisrc, Option.isNone_none, if_true]

/-- **C8** (corrected): a matched data line with no pending code triggers
a width-2 window scan only when the stripped line occurs verbatim among
the page's raw lines, and then centred on the first occurrence of that
text (null is attached with no scan when it does not occur, e.g. when
the raw line carries leading whitespace); the scan itself covers exactly
the two lines before and the two lines after the centre, first code
winning. -/
theorem C8_window_backfill :
    (∀ (ctx : ExtCtx) (lines : List Str) (st : ExtState) (line : Str) (dm : Caps × Str),
      reMatch re_data_line line = some dm → st.isrc = none →
      dataStep ctx lines st line =
        { st with
          rows := st.rows ++ [mkDataRow ctx st dm.1
            (if lines.contains line then
              extract_isrc_from_window lines (lines.indexOf line) 2
            else none)],
          isrc := none }) ∧
    (∀ (pre post : List Str) (line : Str), line ∉ pre →
      extract_isrc_from_window (pre ++ line :: post) ((pre ++ line :: post).indexOf line) 2
        = (pre.drop (pre.length - 2) ++ post.take 2).findSome? extract_isrc_from_line) :=
  ⟨fun ctx lines st line dm hm hisrc => dataStep_emission ctx lines st line dm hm hisrc,
   fun pre post line h => window_first_occurrence pre post line h⟩

/-- **C8** witness: a matched data line appearing verbatim in the raw
lines still yields a cleared pending code on the new state, and a window
centred two lines after a labelled code line picks that code up. -/
theorem C8_window_backfill_witness :
    (dataStep ⟨"T".data, "f.pdf".data, none, none⟩
        ["ARTIST NAME SDI 01/2024 1,00 50,00 0,50 --- 10 A BR".data]
        ⟨false, none, none, none, []⟩
        "ARTIST NAME SDI 01/2024 1,00 50,00 0,50 --- 10 A BR".data).isrc = none ∧
    extract_isrc_from_window
        (["AAAA".data, "ISRC BR-ABC-12-34567".data] ++ "DATA LINE".data :: ([] : List Str))
        ((["AAAA".data, "ISRC BR-ABC-12-34567".data]
            ++ "DATA LINE".data :: ([] : List Str)).indexOf "DATA LINE".data) 2
      = some "BR-ABC-12-34567".data := by
  constructor
  · have h : (reMatch re_data_line
        "ARTIST NAME SDI 01/2024 1,00 50,00 0,50 --- 10 A BR".data).isSome = true := by
      decide
    rw [C8_window_backfill.1 ⟨"T".data, "f.pdf".data, none, none⟩
      ["ARTIST NAME SDI 01/2024 1,00 50,00 0,50 --- 10 A BR".data]
      ⟨false, none, none, none, []⟩
      "ARTIST NAME SDI 01/2024 1,00 50,00 0,50 --- 10 A BR".data
      ((reMatch re_data_line
        "ARTIST NAME SDI 01/2024 1,00 50,00 0,50 --- 10 A BR".data).get h)
      (Option.some_get h).symm rfl]
  · rw [C8_window_backfill.2 ["AAAA".data, "ISRC BR-ABC-12-34567".data] []
      "DATA LINE".data (by decide)]
    decide

/-- **C8** counterexample: the raw data line carries one leading blank, so
its stripped text is absent from the raw line list; the loop then emits
the row with a null code cell and never scans the window, although the
immediately following line holds a code. -/
theorem C8_window_backfill_cex :
    trim " ARTIST NAME SDI 01/2024 1,00 50,00 0,50 --- 10 A BR".data
        ∉ ([" ARTIST NAME SDI 01/2024 1,00 50,00 0,50 --- 10 A BR".data,
            "ISRC BR-ABC-12-34567".data] : List Str) ∧
    extract_isrc_from_line "ISRC BR-ABC-12-34567".data = some "BR-ABC-12-34567".data ∧
    (processLine ⟨"T".data, "f.pdf".data, none, none⟩
        [" ARTIST NAME SDI 01/2024 1,00 50,00 0,50 --- 10 A BR".data,
          "ISRC BR-ABC-12-34567".data]
        ⟨false, none, none, none, []⟩
        " ARTIST NAME SDI 01/2024 1,00 50,00 0,50 --- 10 A BR".data).rows.length = 1 ∧
    ∀ r ∈ (processLine ⟨"T".data, "f.pdf".data, none, none⟩
        [" ARTIST NAME SDI 01/2024 1,00 50,00 0,50 --- 10 A BR".data,
          "ISRC BR-ABC-12-34567".data]
        ⟨false, none, none, none, []⟩
        " ARTIST NAME SDI 01/2024 1,00 50,00 0,50 --- 10 A BR".data).rows,
      lookupRow r "isrc_iswc" = Val.null := by
  exact ⟨by decide, by decide, by decide, by decide⟩

/-- In the skip band, the column-header line re-enables extraction. -/
lemma processLine_colheader (ctx : ExtCtx) (lines : List Str) (st : ExtState) (raw : Str)
    (hne : (trim raw).isEmpty = false)
    (hskip : st.skip = true)
    (hcond : hasSubL "OBRA" (trim raw) = true ∧
      (hasSubL "RUBRICA" (trim raw) = true ∨ hasSubL "RENDIMENTO" (trim raw) = true ∨
        hasSubL "PERÍODO" (trim raw) = true)) :
    processLine ctx lines st raw = { st with skip := false } := by
  unfold processLine
  simp only [hne, hskip, Bool.false_eq_true, if_false, if_true]
  rw [if_pos hcond]

/-- A work-header line loads its code and cleaned title into the running
state and clears the pending code, emitting nothing. -/
lemma processLine_header (ctx : ExtCtx) (lines : List Str) (st : ExtState) (raw : Str)
    (m : Caps × Str)
    (hne : (trim raw).isEmpty = false)
    (hskip : st.skip = false)
    (hban : hasSubL "DISTRIBUIÇÃO DE DIREITOS" (trim raw) = false)
    (hfur : hasAnySub pageFurnitureKws (trim raw) = false)
    (hisrc : extract_isrc_from_line (trim raw) = none)
    (hhdr : reMatch re_obra_header (trim raw) = some m) :
    processLine ctx lines st raw =
      { st with
        obra_codigo := group m.1 1
        obra_titulo := clean_text (some (Re.sub reTituloTrim []
          (trim ((group m.1 2).getD []))))
        isrc := none } := by
  unfold processLine
  simp only [hne, hskip, hban, hfur, hisrc, hhdr, Bool.false_eq_true, if_false]

/-- A matched data line with no pending code and a fruitless window
appends one row built from the running header fields. -/
lemma processLine_data (ctx : ExtCtx) (lines : List Str) (st : ExtState) (raw : Str)
    (dm : Caps × Str)
    (hne : (trim raw).isEmpty = false)
    (hskip : st.skip = false)
    (hban : hasSubL "DISTRIBUIÇÃO DE DIREITOS" (trim raw) = false)
    (hfur : hasAnySub pageFurnitureKws (trim raw) = false)
    (hisrcLn : extract_isrc_from_line (trim raw) = none)
    (hhdr : reMatch re_obra_header (trim raw) = none)
    (hsimple : reMatch re_obra_header_simple (trim raw) = none)
    (hdata : reMatch re_data_line (trim raw) = some dm)
    (hisrc : st.isrc = none)
    (hwin : (if lines.contains (trim raw) then
        extract_isrc_from_window lines (lines.indexOf (trim raw)) 2
      else none) = none) :
    processLine ctx lines st raw =
      { st with rows := st.rows ++ [mkDataRow ctx st dm.1 none], isrc := none } := by
  unfold processLine
  simp only [hne, hskip, hban, hfur, hisrcLn, hhdr, hsimple, Bool.false_eq_true, if_false]
  rw [dataStep_emission ctx lines st (trim raw) dm hdata hisrc, hwin, hskip]

/-- A window over code-free lines finds nothing, whatever the indices. -/
lemma windowScan_none_of_clean (lines : List Str) (i : Nat)
    (h : ∀ l ∈ lines, extract_isrc_from_line l = none) :
    ∀ js, windowScan lines i js = none := by
  intro js
  induction js with
  | nil => rfl
  | cons j t ih =>
    unfold windowScan
    by_cases hj : j = i
    · rw [if_pos hj]
      exact ih
    · rw [if_neg hj]
      have hx : extract_isrc_from_line (lines.getD j []) = none := by
        by_cases hlt : j < lines.length
        · rw [List.getD_eq_getElem lines [] hlt]
          exact h _ (List.getElem_mem hlt)
        · rw [List.getD_eq_default lines [] (by omega)]
          decide
      rw [hx]
      exact ih

/-- The width-`w` window over code-free lines finds nothing. -/
lemma window_none_of_clean (lines : List Str)
    (h : ∀ l ∈ lines, extract_isrc_from_line l = none) (i w : Nat) :
    extract_isrc_from_window lines i w = none := by
  unfold extract_isrc_from_window
  exact windowScan_none_of_clean lines i h _

/-- The emitted row's work-code cell is the running header code. -/
lemma mkDataRow_obra_codigo (ctx : ExtCtx) (st : ExtState) (caps : Caps)
    (isrc : Option Str) :
    lookupRow (mkDataRow ctx st caps isrc) "obra_codigo" = Val.ofOptStr st.obra_codigo := rfl

/-- The emitted row's work-reference cell is title-or-code of the running
header. -/
lemma mkDataRow_obra_ref (ctx : ExtCtx) (st : ExtState) (caps : Caps)
    (isrc : Option Str) :
    lookupRow (mkDataRow ctx st caps isrc) "obra_referencia"
      = Val.ofOptStr (pyOr st.obra_titulo st.obra_codigo) := rfl

/-- **C1**: over a page `[column header, header A, data 1, data 2,
header B, data 3]` (headers matching the work-header pattern, data lines
matching the data cascade, all lines pre-stripped and free of banners,
furniture and inline codes), the loop emits exactly three rows: the rows
for data 1 and data 2 carry header A's code and title-or-code reference,
the row for data 3 carries header B's, and neither header emits a row. -/
theorem C1_forward_fill (ctx : ExtCtx) (colH hA d1 d2 hB d3 : Str)
    (mA mB m1 m2 m3 : Caps × Str)
    (hclean : ∀ l ∈ ([colH, hA, d1, d2, hB, d3] : List Str), trim l = l ∧
      l.isEmpty = false ∧
      hasSubL "DISTRIBUIÇÃO DE DIREITOS" l = false ∧
      hasAnySub pageFurnitureKws l = false ∧
      extract_isrc_from_line l = none)
    (hcol : hasSubL "OBRA" colH = true ∧
      (hasSubL "RUBRICA" colH = true ∨ hasSubL "RENDIMENTO" colH = true ∨
        hasSubL "PERÍODO" colH = true))
    (hhA : reMatch re_obra_header hA = some mA)
    (hhB : reMatch re_obra_header hB = some mB)
    (hd1h : reMatch re_obra_header d1 = none)
    (hd1s : reMatch re_obra_header_simple d1 = none)
    (hd1 : reMatch re_data_line d1 = some m1)
    (hd2h : reMatch re_obra_header d2 = none)
    (hd2s : reMatch re_obra_header_simple d2 = none)
    (hd2 : reMatch re_data_line d2 = some m2)
    (hd3h : reMatch re_obra_header d3 = none)
    (hd3s : reMatch re_obra_header_simple d3 = none)
    (hd3 : reMatch re_data_line d3 = some m3) :
    (([colH, hA, d1, d2, hB, d3] : List Str).foldl
        (processLine ctx [colH, hA, d1, d2, hB, d3])
        ⟨true, none, none, none, []⟩).rows.map
        (fun r => (lookupRow r "obra_codigo", lookupRow r "obra_referencia"))
      = [(Val.ofOptStr (group mA.1 1),
          Val.ofOptStr (pyOr (clean_text (some (Re.sub reTituloTrim []
            (trim ((group mA.1 2).getD []))))) (group mA.1 1))),
         (Val.ofOptStr (group mA.1 1),
          Val.ofOptStr (pyOr (clean_text (some (Re.sub reTituloTrim []
            (trim ((group mA.1 2).getD []))))) (group mA.1 1))),
         (Val.ofOptStr (group mB.1 1),
          Val.ofOptStr (pyOr (clean_text (some (Re.sub reTituloTrim []
            (trim ((group mB.1 2).getD []))))) (group mB.1 1)))] := by
  obtain ⟨t0, e0, b0, f0, i0⟩ := hclean colH (by simp)
  obtain ⟨tA, eA, bA, fA, iA⟩ := hclean hA (by simp)
  obtain ⟨t1, e1, b1, f1, i1⟩ := hclean d1 (by simp)
  obtain ⟨t2, e2, b2, f2, i2⟩ := hclean d2 (by simp)
  obtain ⟨tB, eB, bB, fB, iB⟩ := hclean hB (by simp)
  obtain ⟨t3, e3, b3, f3, i3⟩ := hclean d3 (by simp)
  have hwn : ∀ i w, extract_isrc_from_window
      ([colH, hA, d1, d2, hB, d3] : List Str) i w = none :=
    window_none_of_clean _ (fun l hl => (hclean l hl).2.2.2.2)
  simp only [List.foldl_cons, List.foldl_nil]
  rw [processLine_colheader ctx _ _ colH (by rw [t0]; exact e0) rfl
    ⟨by rw [t0]; exact hcol.1, by rw [t0]; exact hcol.2⟩]
  rw [processLine_header ctx _ _ hA mA (by rw [tA]; exact eA) rfl
    (by rw [tA]; exact bA) (by rw [tA]; exact fA) (by rw [tA]; exact iA)
    (by rw [tA]; exact hhA)]
  rw [processLine_data ctx _ _ d1 m1 (by rw [t1]; exact e1) rfl
    (by rw [t1]; exact b1) (by rw [t1]; exact f1) (by rw [t1]; exact i1)
    (by rw [t1]; exact hd1h) (by rw [t1]; exact hd1s) (by rw [t1]; exact hd1) rfl
    (by rw [t1, hwn]; exact ite_self none)]
  rw [processLine_data ctx _ _ d2 m2 (by rw [t2]; exact e2) rfl
    (by rw [t2]; exact b2) (by rw [t2]; exact f2) (by rw [t2]; exact i2)
    (by rw [t2]; exact hd2h) (by rw [t2]; exact hd2s) (by rw [t2]; exact hd2) rfl
    (by rw [t2, hwn]; exact ite_self none)]
  rw [processLine_header ctx _ _ hB mB (by rw [tB]; exact eB) rfl
    (by rw [tB]; exact bB) (by rw [tB]; exact fB) (by rw [tB]; exact iB)
    (by rw [tB]; exact hhB)]
  rw [processLine_data ctx _ _ d3 m3 (by rw [t3]; exact e3) rfl
    (by rw [t3]; exact b3) (by rw [t3]; exact f3) (by rw [t3]; exact i3)
    (by rw [t3]; exact hd3h) (by rw [t3]; exact hd3s) (by rw [t3]; exact hd3) rfl
    (by rw [t3, hwn]; exact ite_self none)]
  simp only [List.nil_append, List.singleton_append, List.cons_append, List.append_nil,
    List.map_cons, List.map_nil, mkDataRow_obra_codigo, mkDataRow_obra_ref]

/-- **C1** witness: a concrete page with two work headers and three data
lines; the first two rows inherit header A's code and title, the third
row header B's. -/
theorem C1_forward_fill_witness :
    ((["OBRA RUBRICA PERÍODO RENDIMENTO".data,
        "12345 MY GREAT SONG 1.234,56 --- 10".data,
        "ARTIST NAME SDI 01/2024 1,00 50,00 0,50 --- 10 A BR".data,
        "SINGER TWO SDI 02/2024 0,50 100,00 0,50 --- 1 B SH".data,
        "67890 ANOTHER 99,10 --- 2".data,
        "THIRD MAN SDI 03/2024 1,11 50,00 0,55 --- 2 C ST".data] : List Str).foldl
        (processLine ⟨"T".data, "f.pdf".data, none, none⟩
          ["OBRA RUBRICA PERÍODO RENDIMENTO".data,
        "12345 MY GREAT SONG 1.234,56 --- 10".data,
        "ARTIST NAME SDI 01/2024 1,00 50,00 0,50 --- 10 A BR".data,
        "SINGER TWO SDI 02/2024 0,50 100,00 0,50 --- 1 B SH".data,
        "67890 ANOTHER 99,10 --- 2".data,
        "THIRD MAN SDI 03/2024 1,11 50,00 0,55 --- 2 C ST".data])
        ⟨true, none, none, none, []⟩).rows.map
        (fun r => (lookupRow r "obra_codigo", lookupRow r "obra_referencia"))
      = [(Val.ofOptStr (some "12345".data), Val.ofOptStr (some "MY GREAT SONG".data)),
         (Val.ofOptStr (some "12345".data), Val.ofOptStr (some "MY GREAT SONG".data)),
         (Val.ofOptStr (some "67890".data), Val.ofOptStr (some "ANOTHER".data))] := by
  rw [C1_forward_fill ⟨"T".data, "f.pdf".data, none, none⟩
    "OBRA RUBRICA PERÍODO RENDIMENTO".data
    "12345 MY GREAT SONG 1.234,56 --- 10".data
    "ARTIST NAME SDI 01/2024 1,00 50,00 0,50 --- 10 A BR".data
    "SINGER TWO SDI 02/2024 0,50 100,00 0,50 --- 1 B SH".data
    "67890 ANOTHER 99,10 --- 2".data
    "THIRD MAN SDI 03/2024 1,11 50,00 0,55 --- 2 C ST".data
    ((reMatch re_obra_header "12345 MY GREAT SONG 1.234,56 --- 10".data).get (by decide))
    ((reMatch re_obra_header "67890 ANOTHER 99,10 --- 2".data).get (by decide))
    ((reMatch re_data_line "ARTIST NAME SDI 01/2024 1,00 50,00 0,50 --- 10 A BR".data).get (by decide))
    ((reMatch re_data_line "SINGER TWO SDI 02/2024 0,50 100,00 0,50 --- 1 B SH".data).get (by decide))
    ((reMatch re_data_line "THIRD MAN SDI 03/2024 1,11 50,00 0,55 --- 2 C ST".data).get (by decide))
    (by decide)
    (by decide)
    (Option.some_get (show (reMatch re_obra_header "12345 MY GREAT SONG 1.234,56 --- 10".data).isSome = true by decide)).symm
    (Option.some_get (show (reMatch re_obra_header "67890 ANOTHER 99,10 --- 2".data).isSome = true by decide)).symm
    (by decide)
    (by decide)
    (Option.some_get (show (reMatch re_data_line "ARTIST NAME SDI 01/2024 1,00 50,00 0,50 --- 10 A BR".data).isSome = true by decide)).symm
    (by decide)
    (by decide)
    (Option.some_get (show (reMatch re_data_line "SINGER TWO SDI 02/2024 0,50 100,00 0,50 --- 1 B SH".data).isSome = true by decide)).symm
    (by decide)
    (by decide)
    (Option.some_get (show (reMatch re_data_line "THIRD MAN SDI 03/2024 1,11 50,00 0,55 --- 2 C ST".data).isSome = true by decide)).symm]
  decide

end Claims
